import Mathlib

/-!
PushProx proxy: the HTTP front end of the relay (`cmd/proxy/main.go`)

A shallow embedding of the request handlers of the PushProx proxy and of the
parts of the Go standard library they call.

Conventions of the embedding:

* Go `string` and `[]byte` values are Lean `String`s (sequences of code points).
* A Go `error` is its message: `Option String` for a returned `error`,
  `Except String α` for a `(value, error)` pair.
* A Go `map[string]V` is an `AList`: a finite map with distinct keys.
* An `http.ResponseWriter` is the state of the response writer of the server as
  the handler drives it: the header map, the final status and the headers
  handed over with it, the informational responses, the body bytes accepted,
  and whether `WriteHeader` panicked.
* The coordinator is shared mutable state: its methods are state transformers
  and every handler returns the coordinator state it leaves behind together
  with the list of coordinator methods it called.
* Logging and metrics instrumentation have no effect on a response and are
  left out.
-/

namespace PushProx

/-! ## HTTP values -/

/-- Go `http.Header`, a `map[string][]string`. -/
abbrev Header := AList (fun _ : String => List String)

/-- Go `Header.Get` for a key that is already in canonical form: the first
value stored under the key, or the empty string. -/
def Header.Get (h : Header) (key : String) : String :=
  match h.lookup key with
  | some (v :: _) => v
  | _ => ""

/-- Go `Header.Set` for a canonical key: the key maps to the single value. -/
def Header.Set (h : Header) (key value : String) : Header :=
  h.insert key [value]

/-- Go `Header.Del` for a canonical key. -/
def Header.Del (h : Header) (key : String) : Header :=
  h.erase key

/-- The fields of Go `url.URL` that the proxy reads. -/
structure URL where
  Scheme : String
  Host : String
  Path : String
  RawQuery : String
deriving DecidableEq, Repr

/-- Go `context.Context` as far as the proxy uses it: the time left until its
deadline when the handler runs, in nanoseconds (`time.Duration`); `none` is a
context without a deadline, which is what the HTTP server attaches to an
inbound request. -/
structure Context where
  timeout : Option Int
deriving DecidableEq, Repr

/-- Go `context.WithTimeout`: the deadline of the new context is the given
timeout from now, or the deadline of the parent when that one is earlier. -/
def WithTimeout (parent : Context) (d : Int) : Context :=
  match parent.timeout with
  | none => ⟨some d⟩
  | some p => if p < d then ⟨some p⟩ else ⟨some d⟩

/-- Go `http.Request`: the fields the proxy reads or writes. `Body` is the
byte content that reading the body stream yields. -/
structure Request where
  Method : String
  URL : URL
  Header : Header
  Body : String
  RequestURI : String
  ctx : Context

/-- Go `Request.WithContext`: a copy of the request with the context replaced. -/
def Request.WithContext (r : Request) (ctx : Context) : Request :=
  { r with ctx := ctx }

/-- Go `http.Response`: status code, headers and the content of the body
stream. -/
structure Response where
  StatusCode : Int
  Header : Header
  Body : String

/-! ## The response writer -/

/-- Go `strconv.ParseUint` in base 10 on the digits of a number: no value for
an empty string or a character that is not a decimal digit. -/
def parseDigits (ds : List Char) : Option Nat :=
  if ds = [] then none
  else ds.foldl (fun acc c => acc.bind fun n =>
    if c.isDigit then some (10 * n + (c.toNat - 48)) else none) (some 0)

/-- Go `strconv.ParseInt(s, 10, 64)`: an optional sign and decimal digits, the
value within the range of `int64`; `none` when Go returns an error. -/
def ParseInt (s : String) : Option Int :=
  match s.data with
  | '+' :: ds => (parseDigits ds).bind fun n =>
      if n < 9223372036854775808 then some (Int.ofNat n) else none
  | '-' :: ds => (parseDigits ds).bind fun n =>
      if n ≤ 9223372036854775808 then some (-Int.ofNat n) else none
  | ds => (parseDigits ds).bind fun n =>
      if n < 9223372036854775808 then some (Int.ofNat n) else none

/-- Go `bodyAllowedForStatus`: a response with status 1xx, 204 or 304 has no
body. -/
def bodyAllowedForStatus (status : Int) : Bool :=
  if 100 ≤ status ∧ status ≤ 199 then false
  else if status = 204 then false
  else if status = 304 then false
  else true

/-- The length a header map declares for the body: the value of
`Content-Length` when it is a number that is not negative. -/
def declaredLength (h : Header) : Option Int :=
  if h.Get "Content-Length" = "" then none
  else match ParseInt (h.Get "Content-Length") with
    | some v => if 0 ≤ v then some v else none
    | none => none

/-- The state of the `http.ResponseWriter` of the server (the `response` of
`net/http`) as the handler drives it:

* `header`: the map `Header()` returns, which the handler may change at any
  time;
* `wroteHeader`, `status`: whether the final status was written, and which;
* `sent`: the header map as it stood when the final status was written
  (changes to `header` after that point reach no client); the server derives
  the header lines it sends from this map, adding its own (`Date`, framing) and
  leaving out those the status forbids;
* `interim`: the informational (1xx) responses written before the final one,
  each with its status code and headers;
* `contentLength`, `written`: the body length the headers declared, and the
  number of body bytes the handler has offered;
* `body`: the body bytes the writer has accepted;
* `panicked`: `WriteHeader` panicked, which ends the handler. -/
structure ResponseWriter where
  header : Header
  wroteHeader : Bool
  status : Int
  body : String
  sent : Header
  interim : List (Int × Header)
  contentLength : Option Int
  written : Int
  panicked : Bool

/-- The writer the server hands to a handler: nothing written yet. -/
def ResponseWriter.fresh : ResponseWriter :=
  { header := ∅, wroteHeader := false, status := 0, body := "", sent := ∅, interim := [],
    contentLength := none, written := 0, panicked := false }

/-- Go `ResponseWriter.WriteHeader` of the server. A call after the final
status was written is ignored. A code below 100 or above 999 panics
(`checkWriteHeaderCode`). A code from 100 to 199 other than 101 is written at
once as an informational response, with the current headers less
`Content-Length` and `Transfer-Encoding`, and does not fix the final status.
Any other code becomes the final status: the header map is kept as it stands,
and its `Content-Length` is read, or deleted from the map when it is no
number or negative. On a writer that has panicked nothing runs any more. -/
def ResponseWriter.WriteHeader (w : ResponseWriter) (code : Int) : ResponseWriter :=
  if w.panicked then w
  else if w.wroteHeader then w
  else if code < 100 ∨ 999 < code then { w with panicked := true }
  else if 100 ≤ code ∧ code ≤ 199 ∧ code ≠ 101 then
    { w with interim := w.interim
        ++ [(code, (w.header.Del "Content-Length").Del "Transfer-Encoding")] }
  else
    let w1 := { w with wroteHeader := true, status := code, sent := w.header }
    let cl := w.header.Get "Content-Length"
    if cl = "" then w1
    else match ParseInt cl with
      | some v =>
        if 0 ≤ v then { w1 with contentLength := some v }
        else { w1 with header := w.header.Del "Content-Length" }
      | none => { w1 with header := w.header.Del "Content-Length" }

/-- Go `ResponseWriter.Write` of the server: writes status 200 first when no
final status was written; then an empty write does nothing, a write for a
status that allows no body is refused (`ErrBodyNotAllowed`), a write that
takes the bytes offered beyond the declared `Content-Length` is refused
(`ErrContentLength`), and any other write appends its bytes to the body. On a
writer that has panicked nothing runs any more. -/
def ResponseWriter.Write (w : ResponseWriter) (b : String) : ResponseWriter :=
  if w.panicked then w
  else
    let w1 := if w.wroteHeader then w else w.WriteHeader 200
    if b = "" then w1
    else if bodyAllowedForStatus w1.status = false then w1
    else
      let w2 := { w1 with written := w1.written + (b.utf8ByteSize : Int) }
      match w2.contentLength with
      | some n => if n < w2.written then w2 else { w2 with body := w2.body ++ b }
      | none => { w2 with body := w2.body ++ b }

/-- The status code of the response the client receives once the handler has
returned: the one written, or 200 when the handler wrote none. (A handler that
panicked does not return and sends no response: see `panicked`.) -/
def ResponseWriter.statusCode (w : ResponseWriter) : Int :=
  if w.wroteHeader then w.status else 200

/-- The headers the handler supplied for the response the client receives once
the handler has returned: the header map as it stood when the final status was
written, or as it stands at the return when the handler wrote none. -/
def ResponseWriter.sentHeader (w : ResponseWriter) : Header :=
  if w.wroteHeader then w.sent else w.header

/-- Go `http.Error`: replies with the given message and status code as plain
text; the message is followed by a newline (`fmt.Fprintln`). -/
def Error (w : ResponseWriter) (error : String) (code : Int) : ResponseWriter :=
  let h := w.header.Del "Content-Length"
  let h := h.Set "Content-Type" "text/plain; charset=utf-8"
  let h := h.Set "X-Content-Type-Options" "nosniff"
  let w1 := { w with header := h }
  let w2 := w1.WriteHeader code
  w2.Write (error ++ "\n")

/-! ## Strings: `strings.TrimSpace` -/

/-- Go `unicode.IsSpace`: the Latin-1 white space characters, and beyond
Latin-1 the characters of the Unicode `White_Space` property. -/
def IsSpace (r : Char) : Bool :=
  if r.toNat ≤ 0xFF then
    r = '\t' || r = '\n' || r.toNat = 0x0B || r.toNat = 0x0C || r = '\r' || r = ' '
      || r.toNat = 0x85 || r.toNat = 0xA0
  else
    r.toNat = 0x1680 || (0x2000 ≤ r.toNat && r.toNat ≤ 0x200A) || r.toNat = 0x2028
      || r.toNat = 0x2029 || r.toNat = 0x202F || r.toNat = 0x205F || r.toNat = 0x3000

/-- The `asciiSpace` table of Go package `strings`. -/
def asciiSpace (c : Char) : Bool :=
  c = '\t' || c = '\n' || c.toNat = 0x0B || c.toNat = 0x0C || c = '\r' || c = ' '

/-- Go `strings.TrimLeftFunc`. -/
def TrimLeftFunc (s : List Char) (f : Char → Bool) : List Char :=
  s.dropWhile f

/-- Go `strings.TrimRightFunc`. -/
def TrimRightFunc (s : List Char) (f : Char → Bool) : List Char :=
  s.rdropWhile f

/-- Go `strings.TrimFunc`. -/
def TrimFunc (s : List Char) (f : Char → Bool) : List Char :=
  TrimRightFunc (TrimLeftFunc s f) f

/-- The second loop of `strings.TrimSpace`: scans `s[start:stop]` from its end
(the argument is that slice reversed) for the first ASCII non-space, and falls
back to `TrimRightFunc` at a non-ASCII character. -/
def trimSpaceStop : List Char → List Char
  | [] => []
  | c :: rest =>
    if 0x80 ≤ c.toNat then TrimRightFunc (c :: rest).reverse IsSpace
    else if asciiSpace c then trimSpaceStop rest
    else (c :: rest).reverse

/-- The first loop of `strings.TrimSpace`: scans from the start for the first
ASCII non-space, and falls back to `TrimFunc` at a non-ASCII character. -/
def trimSpaceStart : List Char → List Char
  | [] => trimSpaceStop []
  | c :: rest =>
    if 0x80 ≤ c.toNat then TrimFunc (c :: rest) IsSpace
    else if asciiSpace c then trimSpaceStart rest
    else trimSpaceStop (c :: rest).reverse

/-- Go `strings.TrimSpace`. -/
def TrimSpace (s : String) : String :=
  ⟨trimSpaceStart s.data⟩

/-! ## Strings: `%q` of `fmt.Sprintf` (`strconv.Quote`) -/

/-- The `lowerhex` digit table of Go package `strconv`. -/
def lowerhex (n : Nat) : Char :=
  if n % 16 < 10 then Char.ofNat (48 + n % 16) else Char.ofNat (87 + n % 16)

/-- Go `strconv.IsPrint`: decided by range for ASCII and Latin-1; beyond that
Go consults its Unicode tables, which are the parameter `wide`. -/
def IsPrint (wide : Char → Bool) (r : Char) : Bool :=
  if r.toNat ≤ 0xFF then
    if 0x20 ≤ r.toNat ∧ r.toNat ≤ 0x7E then true
    else if 0xA1 ≤ r.toNat ∧ r.toNat ≤ 0xFF then r.toNat ≠ 0xAD
    else false
  else wide r

/-- Go `strconv.appendEscapedRune` for the double quote, as `Quote` uses it. -/
def appendEscapedRune (wide : Char → Bool) (r : Char) : List Char :=
  if r = '"' ∨ r = '\\' then ['\\', r]
  else if IsPrint wide r then [r]
  else if r.toNat = 0x07 then ['\\', 'a']
  else if r.toNat = 0x08 then ['\\', 'b']
  else if r.toNat = 0x0C then ['\\', 'f']
  else if r = '\n' then ['\\', 'n']
  else if r = '\r' then ['\\', 'r']
  else if r = '\t' then ['\\', 't']
  else if r.toNat = 0x0B then ['\\', 'v']
  else if r.toNat < 0x20 ∨ r.toNat = 0x7F then
    ['\\', 'x', lowerhex (r.toNat / 16), lowerhex r.toNat]
  else if r.toNat < 0x10000 then
    ['\\', 'u', lowerhex (r.toNat / 4096), lowerhex (r.toNat / 256),
      lowerhex (r.toNat / 16), lowerhex r.toNat]
  else
    ['\\', 'U', lowerhex (r.toNat / 268435456), lowerhex (r.toNat / 16777216),
      lowerhex (r.toNat / 1048576), lowerhex (r.toNat / 65536),
      lowerhex (r.toNat / 4096), lowerhex (r.toNat / 256),
      lowerhex (r.toNat / 16), lowerhex r.toNat]

/-- Go `strconv.Quote`, the `%q` verb of `fmt.Sprintf` on a string: the string
between double quotes with every character escaped in Go syntax. -/
def Quote (wide : Char → Bool) (s : String) : String :=
  ⟨'"' :: (s.data.flatMap (appendEscapedRune wide) ++ ['"'])⟩

/-! ## JSON encoding of the client list -/

/-- The struct `targetGroup`. A Go slice or map field is `none` when it is nil. -/
structure targetGroup where
  Targets : Option (List String)
  Labels : Option (List (String × String))

/-- Go `encoding/json` on a `[]string`: `null` for a nil slice, otherwise the
array of the encoded strings. The encoding of a string is the parameter `str`. -/
def marshalStrings (str : String → String) : Option (List String) → String
  | none => "null"
  | some xs => "[" ++ ",".intercalate (xs.map str) ++ "]"

/-- Go `encoding/json` on a `map[string]string`: `null` for a nil map,
otherwise the object of the encoded entries (given here in key order). -/
def marshalLabels (str : String → String) : Option (List (String × String)) → String
  | none => "null"
  | some m => "\x7b" ++ ",".intercalate (m.map fun kv => str kv.1 ++ ":" ++ str kv.2) ++ "\x7d"

/-- Go `encoding/json` on a `*targetGroup`: an object with the fields in
declaration order under their `json` tags. -/
def marshalTargetGroup (str : String → String) (g : targetGroup) : String :=
  "\x7b\"targets\":" ++ marshalStrings str g.Targets
    ++ ",\"labels\":" ++ marshalLabels str g.Labels ++ "\x7d"

/-- Go `json.Encoder.Encode` on a non-nil `[]*targetGroup`: the array of the
encoded elements followed by a newline. -/
def Encode (str : String → String) (targets : List targetGroup) : String :=
  "[" ++ ",".intercalate (targets.map (marshalTargetGroup str)) ++ "]" ++ "\n"

/-! ## Library functions taken as parameters -/

/-- The functions of the Go standard library that the handlers call and whose
results are taken as given. -/
structure StdLib where
  /-- What `http.ReadResponse` returns on a buffer holding the given bytes. -/
  ReadResponse : String → Except String Response
  /-- The bytes `Request.WriteProxy` writes for the given request. -/
  WriteProxy : Request → String
  /-- The text `URL.String` returns. -/
  URLString : URL → String
  /-- The Unicode tables of `strconv.IsPrint` beyond Latin-1. -/
  isPrintWide : Char → Bool
  /-- The JSON encoding `encoding/json` gives a string. -/
  jsonString : String → String

/-! ## The scrape timeout -/

/-- The command line flags `scrape.max-timeout` and `scrape.default-timeout`,
in nanoseconds. -/
structure Flags where
  maxScrapeTimeout : Int
  defaultScrapeTimeout : Int
deriving DecidableEq, Repr

/-- The defaults of the flags: `5m` and `15s`. -/
def Flags.default : Flags :=
  ⟨300000000000, 15000000000⟩

/-- Modelled from the spec: what the spec leaves open about the scrape-timeout
policy of package `util`, which is not among the sources. `supplied` is how the
caller-supplied timeout is read from the request headers (`none` when the
caller supplied none). `outOfRange` is what the policy returns, from the
maximum and the default, when no timeout is supplied and the configured
default lies outside `[0, max]`: the spec says that an absent timeout gives
the default and that the result is clamped to `[0, max]`, and does not say
which of the two prevails there. -/
structure TimeoutPolicy where
  supplied : Header → Option Int
  outOfRange : Int → Int → Int

/-- Modelled from the spec: `util.GetScrapeTimeout` is not among the sources.
The effective deadline is derived from the caller-supplied timeout, clamped to
`[0, max]`, and is the default when the caller supplied none; a supplied
timeout higher than the maximum is clamped to the maximum (the help text of
the flag `scrape.max-timeout`). -/
def GetScrapeTimeout (policy : TimeoutPolicy)
    (maxScrapeTimeout defaultScrapeTimeout : Int) (h : Header) : Int :=
  match policy.supplied h with
  | none =>
    if 0 ≤ defaultScrapeTimeout ∧ defaultScrapeTimeout ≤ maxScrapeTimeout then
      defaultScrapeTimeout
    else policy.outOfRange maxScrapeTimeout defaultScrapeTimeout
  | some t =>
    if maxScrapeTimeout < t then maxScrapeTimeout
    else if t < 0 then 0
    else t

/-! ## The coordinator as the handlers see it -/

/-- The methods of `*Coordinator` that the handlers call, over a coordinator
state `σ`. -/
structure Coordinator (σ : Type) where
  ScrapeResult : Response → σ → Option String × σ
  WaitForScrapeInstruction : String → σ → Except String Request × σ
  DoScrape : Context → Request → σ → Except String Response × σ
  KnownClients : σ → List String

/-- A call of a coordinator method with its arguments. -/
inductive Call where
  | ScrapeResult (r : Response)
  | WaitForScrapeInstruction (fqdn : String)
  | DoScrape (ctx : Context) (r : Request)
  | KnownClients

/-- What running a handler leaves behind: the response written, the
coordinator state, and the coordinator calls made, in order. -/
structure Outcome (σ : Type) where
  w : ResponseWriter
  state : σ
  calls : List Call

/-! ## The handlers -/

/-- The function `copyHTTPResponse`. The body stream reaches the writer in one
write (`io.Copy`). -/
def copyHTTPResponse (resp : Response) (w : ResponseWriter) : ResponseWriter :=
  let w1 := resp.Header.entries.foldl
    (fun (w : ResponseWriter) kv => { w with header := w.header.insert kv.1 kv.2 }) w
  let w2 := w1.WriteHeader resp.StatusCode
  w2.Write resp.Body

/-- The method `handlePush` handles scrape responses from client. -/
def handlePush {σ : Type} (lib : StdLib) (c : Coordinator σ)
    (w : ResponseWriter) (r : Request) (s : σ) : Outcome σ :=
  let buf := r.Body
  match lib.ReadResponse buf with
  | .error err => ⟨Error w ("Error pushing: " ++ err) 500, s, []⟩
  | .ok scrapeResult =>
    match c.ScrapeResult scrapeResult s with
    | (some err, s1) =>
      ⟨Error w ("Error pushing: " ++ err) 500, s1, [Call.ScrapeResult scrapeResult]⟩
    | (none, s1) => ⟨w, s1, [Call.ScrapeResult scrapeResult]⟩

/-- The method `handlePoll` handles clients registering and asking for scrapes. -/
def handlePoll {σ : Type} (lib : StdLib) (c : Coordinator σ)
    (w : ResponseWriter) (r : Request) (s : σ) : Outcome σ :=
  let fqdn := r.Body
  match c.WaitForScrapeInstruction (TrimSpace fqdn) s with
  | (.error err, s1) =>
    ⟨Error w ("Error WaitForScrapeInstruction: " ++ err) 408, s1,
      [Call.WaitForScrapeInstruction (TrimSpace fqdn)]⟩
  | (.ok request, s1) =>
    ⟨w.Write (lib.WriteProxy request), s1, [Call.WaitForScrapeInstruction (TrimSpace fqdn)]⟩

/-- The method `handleListClients` handles requests to list available clients
as a JSON array. -/
def handleListClients {σ : Type} (lib : StdLib) (c : Coordinator σ)
    (w : ResponseWriter) (_r : Request) (s : σ) : Outcome σ :=
  let known := c.KnownClients s
  let targets := known.foldl
    (fun (targets : List targetGroup) k => targets ++ [{ Targets := some [k], Labels := none }]) []
  let w1 := { w with header := w.header.Set "Content-Type" "application/json" }
  ⟨w1.Write (Encode lib.jsonString targets), s, [Call.KnownClients]⟩

/-- The method `handleProxy` handles proxied scrapes from Prometheus. -/
def handleProxy {σ : Type} (lib : StdLib) (policy : TimeoutPolicy) (flags : Flags)
    (c : Coordinator σ) (w : ResponseWriter) (r : Request) (s : σ) : Outcome σ :=
  let ctx := WithTimeout r.ctx
    (GetScrapeTimeout policy flags.maxScrapeTimeout flags.defaultScrapeTimeout r.Header)
  let request := r.WithContext ctx
  let request := { request with RequestURI := "" }
  match c.DoScrape ctx request s with
  | (.error err, s1) =>
    ⟨Error w ("Error scraping " ++ Quote lib.isPrintWide (lib.URLString request.URL)
        ++ ": " ++ err) 500, s1, [Call.DoScrape ctx request]⟩
  | (.ok resp, s1) => ⟨copyHTTPResponse resp w, s1, [Call.DoScrape ctx request]⟩

/-- The context `handleProxy` hands to `DoScrape`. -/
def proxyContext (policy : TimeoutPolicy) (flags : Flags) (r : Request) : Context :=
  WithTimeout r.ctx
    (GetScrapeTimeout policy flags.maxScrapeTimeout flags.defaultScrapeTimeout r.Header)

/-- The request `handleProxy` hands to `DoScrape`. -/
def proxyRequest (policy : TimeoutPolicy) (flags : Flags) (r : Request) : Request :=
  { r.WithContext (proxyContext policy flags r) with RequestURI := "" }

/-! ## Routing -/

/-- The `httpHandler` struct as far as `ServeHTTP` uses it: the two handlers
it dispatches to, each a function of the writer and the request. -/
structure httpHandler (α : Type) where
  mux : ResponseWriter → Request → α
  proxy : ResponseWriter → Request → α

/-- `ServeHTTP` discriminates between proxy requests and other requests. -/
def ServeHTTP {α : Type} (h : httpHandler α) (w : ResponseWriter) (r : Request) : α :=
  if r.URL.Host ≠ "" then -- Proxy request
    h.proxy w r
  else -- Non-proxy requests
    h.mux w r

/-- Which of the two handlers of `ServeHTTP` ran. -/
inductive Route where
  | proxy
  | mux
deriving DecidableEq, Repr

/-- A handler pair that records every invocation: each handler returns the
list holding its own name. -/
def tracingHandler : httpHandler (List Route) :=
  { mux := fun _ _ => [Route.mux], proxy := fun _ _ => [Route.proxy] }

/-- An inbound request with the given URL and body and no headers. -/
def Request.inbound (method : String) (u : PushProx.URL) (body : String) : Request :=
  { Method := method, URL := u, Header := ∅, Body := body, RequestURI := "", ctx := ⟨none⟩ }

/-! ## The result router of the coordinator -/

/-- Modelled from the spec: the error taxonomy of the coordinator, whose
source `coordinator.go` is missing. -/
inductive CoordError where
  | EnqueueTimeout
  | ResultTimeout
  | NoPendingScrape
  | UnknownOrExpired
  | MalformedResult
deriving DecidableEq, Repr

/-- Modelled from the spec: the ticket of the data model, missing with
`coordinator.go`: correlation ID, target identifier, outbound request,
creation time and deadline. -/
structure Ticket where
  id : String
  target : String
  request : Request
  created : Nat
  deadline : Nat

/-- Modelled from the spec: the state of the coordinator, missing with
`coordinator.go`. One mailbox per target holding at most one ticket; the
waiter registry, from correlation ID to result slot; the result slots that
hold a delivered result (a slot is a buffer of one, named by a number, and is
empty when it is not in the map); the client registry, from target to
last-seen time. -/
structure CoordState where
  mailboxes : AList (fun _ : String => Ticket)
  waiters : AList (fun _ : String => Nat)
  slots : AList (fun _ : Nat => Response)
  clients : AList (fun _ : String => Nat)

/-- Modelled from the spec: `Deliver` of the waiter registry, missing with
`coordinator.go`. Looks up the slot for `id`; if present, writes the result to
it and removes the entry; if absent, returns `UnknownOrExpired` without side
effects. -/
def Deliver (id : String) (result : Response) (s : CoordState) :
    Except CoordError Unit × CoordState :=
  match s.waiters.lookup id with
  | some slot =>
    (.ok (), { s with slots := s.slots.insert slot result, waiters := s.waiters.erase id })
  | none => (.error CoordError.UnknownOrExpired, s)

/-- Modelled from the spec: `SubmitResult`, the entry of the result router
(the method `ScrapeResult` of the missing `coordinator.go`). Extracts the
correlation ID from the `Id` header of the response and calls `Deliver`. -/
def SubmitResult (parsedResponse : Response) (s : CoordState) :
    Except CoordError Unit × CoordState :=
  Deliver (parsedResponse.Header.Get "Id") parsedResponse s

/-- Modelled from the spec: the text of a coordinator error, missing with
`coordinator.go`; the spec names the errors and not their wording. -/
def CoordError.message : CoordError → String
  | .EnqueueTimeout => "EnqueueTimeout"
  | .ResultTimeout => "ResultTimeout"
  | .NoPendingScrape => "NoPendingScrape"
  | .UnknownOrExpired => "UnknownOrExpired"
  | .MalformedResult => "MalformedResult"

/-- Modelled from the spec: `SubmitResult` as the method `ScrapeResult` that
`handlePush` calls, its error turned into a Go `error`. -/
def ScrapeResult (r : Response) (s : CoordState) : Option String × CoordState :=
  match SubmitResult r s with
  | (.ok _, s1) => (none, s1)
  | (.error e, s1) => (some e.message, s1)

/-- A coordinator over the modelled state whose `ScrapeResult` is the result
router; the other methods are those of `c`. -/
def withResultRouter (c : Coordinator CoordState) : Coordinator CoordState :=
  { c with ScrapeResult := ScrapeResult }

/-! ## Concrete inputs -/

/-- A coordinator state with one waiter, for ticket `42` with result slot 7,
and one known client. -/
def oneWaiter : CoordState :=
  { mailboxes := ∅, waiters := (∅ : AList fun _ : String => Nat).insert "42" 7,
    slots := ∅, clients := (∅ : AList fun _ : String => Nat).insert "node1" 1000 }

/-- A coordinator over the modelled state that has no work: polls and scrapes
time out, and the known clients are those of the client registry. -/
def idleCoordinator : Coordinator CoordState :=
  { ScrapeResult := fun _ s => (none, s)
    WaitForScrapeInstruction := fun _ s => (.error "NoPendingScrape", s)
    DoScrape := fun _ _ s => (.error "ScrapeTimeout", s)
    KnownClients := fun s => s.clients.keys }

/-- A coordinator state with no waiter. -/
def noWaiter : CoordState :=
  { mailboxes := ∅, waiters := ∅, slots := ∅, clients := ∅ }

/-- A coordinator whose methods return fixed answers; its state counts the
calls that reached it. -/
def fixedCoordinator (push : Option String) (poll : Except String Request)
    (scrape : Except String Response) (known : List String) : Coordinator Nat :=
  { ScrapeResult := fun _ n => (push, n + 1)
    WaitForScrapeInstruction := fun _ n => (poll, n + 1)
    DoScrape := fun _ _ n => (scrape, n + 1)
    KnownClients := fun _ => known }

/-- The response an agent pushes for ticket `42`: status 200, body `up 1`. -/
def pushedResponse : Response :=
  { StatusCode := 200, Header := (∅ : Header).insert "Id" ["42"], Body := "up 1\n" }

/-- The wire form of `pushedResponse`. -/
def pushedBytes : String :=
  "HTTP/1.1 200 OK\r\nId: 42\r\n\r\nup 1\n"

/-- A scrape request for `node1` as the coordinator hands it to a poller. -/
def scrapeRequest : Request :=
  { Method := "GET", URL := ⟨"http", "node1:9100", "/metrics", ""⟩,
    Header := (∅ : Header).insert "Id" ["42"], Body := "", RequestURI := "", ctx := ⟨none⟩ }

/-- A policy under which every request supplies the given timeout, or none,
and a default outside `[0, max]` is used as it is. -/
def policyOf (t : Option Int) : TimeoutPolicy :=
  { supplied := fun _ => t, outOfRange := fun _ d => d }

/-- The response a scrape of `node1` returns: status 200, a content type, the
length of the body, and the body `up 1`. -/
def scrapedResponse : Response :=
  { StatusCode := 200,
    Header := ((∅ : Header).insert "Content-Type" ["text/plain"]).insert "Content-Length" ["5"],
    Body := "up 1\n" }

/-- The response that the pushed bytes `HTTP/1.1 000 X` with body `up 1`
parse to: status code 0. -/
def zeroStatusResponse : Response :=
  { StatusCode := 0, Header := ∅, Body := "up 1\n" }

/-- The response that the pushed bytes `HTTP/1.1 103 Early Hints` parse to: an
informational status without a body. -/
def earlyHintsResponse : Response :=
  { StatusCode := 103, Header := (∅ : Header).insert "Link" ["</style.css>; rel=preload"],
    Body := "" }

/-- A proxied scrape request for `node1` as the scraping system sends it. -/
def proxiedScrape : Request :=
  Request.inbound "GET" ⟨"http", "node1:9100", "/metrics", ""⟩ ""

/-- A proxied scrape request whose query holds double quotes:
`GET http://node1:9100/metrics?job="a"`. -/
def quotedScrape : Request :=
  Request.inbound "GET" ⟨"http", "node1:9100", "/metrics", "job=\"a\""⟩ ""

/-- Library results on the concrete inputs used below: `pushedBytes` parses to
`pushedResponse` and every other buffer is refused; a request is written as
its request line, `Host` line and `Id` header; a URL is scheme, host, path and query put together; strings
of plain letters and digits are JSON-encoded between double quotes. -/
def sampleLib : StdLib :=
  { ReadResponse := fun b =>
      if b = pushedBytes then .ok pushedResponse
      else .error ("malformed HTTP response " ++ Quote (fun _ => true) b)
    WriteProxy := fun r =>
      r.Method ++ " " ++ r.URL.Scheme ++ "://" ++ r.URL.Host ++ r.URL.Path ++ " HTTP/1.1\r\n"
        ++ "Host: " ++ r.URL.Host ++ "\r\n" ++ "Id: " ++ r.Header.Get "Id" ++ "\r\n\r\n"
    URLString := fun u =>
      u.Scheme ++ "://" ++ u.Host ++ u.Path ++ (if u.RawQuery = "" then "" else "?" ++ u.RawQuery)
    isPrintWide := fun _ => true
    jsonString := fun s => "\"" ++ s ++ "\"" }

/-! ## Facts about the response writer -/

/-- A string followed by a newline is not empty. -/
theorem append_newline_ne_empty (msg : String) : msg ++ "\n" ≠ "" := by
  intro h
  have hd := congrArg String.data h
  simp at hd

/-- The headers `http.Error` sets on a fresh writer declare no length. -/
theorem Error_header_length :
    (((ResponseWriter.fresh.header.Del "Content-Length").Set "Content-Type"
        "text/plain; charset=utf-8").Set "X-Content-Type-Options" "nosniff").Get "Content-Length"
      = "" := by
  decide

/-- What `http.Error` leaves in a fresh writer for a final status code that
allows a body: that status, and the message and a newline as the body. -/
theorem Error_fresh (msg : String) (code : Int) (hcode : 200 ≤ code ∧ code ≤ 999)
    (hbody : bodyAllowedForStatus code = true) :
    (Error ResponseWriter.fresh msg code).statusCode = code
    ∧ (Error ResponseWriter.fresh msg code).body = msg ++ "\n"
    ∧ (Error ResponseWriter.fresh msg code).panicked = false := by
  have h1 : ¬ (code < 100 ∨ 999 < code) := by omega
  have h2 : ¬ (100 ≤ code ∧ code ≤ 199 ∧ code ≠ 101) := by omega
  have hne := append_newline_ne_empty msg
  have hlen := Error_header_length
  simp only [ResponseWriter.fresh] at hlen
  simp [Error, ResponseWriter.fresh, ResponseWriter.WriteHeader, ResponseWriter.Write,
    ResponseWriter.statusCode, h1, h2, hne, hbody, hlen]

theorem statusCode_Error_fresh (msg : String) (code : Int) (hcode : 200 ≤ code ∧ code ≤ 999)
    (hbody : bodyAllowedForStatus code = true) :
    (Error ResponseWriter.fresh msg code).statusCode = code :=
  (Error_fresh msg code hcode hbody).1

theorem body_Error_fresh (msg : String) (code : Int) (hcode : 200 ≤ code ∧ code ≤ 999)
    (hbody : bodyAllowedForStatus code = true) :
    (Error ResponseWriter.fresh msg code).body = msg ++ "\n" :=
  (Error_fresh msg code hcode hbody).2.1

/-- The implicit status write on a writer that has written no status and whose
headers declare no length: status 200 with the headers as they stand. -/
theorem WriteHeader_200 (w : ResponseWriter) (hp : w.panicked = false)
    (hw : w.wroteHeader = false) (hcl : w.header.Get "Content-Length" = "") :
    w.WriteHeader 200 = { w with wroteHeader := true, status := 200, sent := w.header } := by
  simp [ResponseWriter.WriteHeader, hp, hw, hcl]

/-- What a write leaves in a writer that has written no status and whose
headers declare no length: status 200, the headers as they stand, and the
bytes appended to the body. -/
theorem Write_unwritten (w : ResponseWriter) (b : String) (hp : w.panicked = false)
    (hw : w.wroteHeader = false) (hcl : w.header.Get "Content-Length" = "")
    (hnone : w.contentLength = none) :
    (w.Write b).statusCode = 200
    ∧ (w.Write b).body = w.body ++ b
    ∧ (w.Write b).header = w.header
    ∧ (w.Write b).sentHeader = w.header
    ∧ (w.Write b).panicked = false := by
  have hallowed : bodyAllowedForStatus 200 = true := by decide
  by_cases hb : b = ""
  · simp only [ResponseWriter.Write, hw, hp, WriteHeader_200 w hp hw hcl, hb]
    simp [ResponseWriter.statusCode, ResponseWriter.sentHeader, hp]
  · simp only [ResponseWriter.Write, hw, hp, WriteHeader_200 w hp hw hcl, hb, hnone]
    simp [ResponseWriter.statusCode, ResponseWriter.sentHeader, hp, hallowed]

/-- What a write leaves in a fresh writer: status 200 and the bytes written. -/
theorem Write_fresh (b : String) :
    (ResponseWriter.fresh.Write b).statusCode = 200
    ∧ (ResponseWriter.fresh.Write b).body = b
    ∧ (ResponseWriter.fresh.Write b).panicked = false := by
  obtain ⟨hst, hbody, _, _, hpan⟩ := Write_unwritten ResponseWriter.fresh b rfl rfl rfl rfl
  refine ⟨hst, ?_, hpan⟩
  rw [hbody]
  simp [ResponseWriter.fresh]

theorem statusCode_Write_fresh (b : String) :
    (ResponseWriter.fresh.Write b).statusCode = 200 :=
  (Write_fresh b).1

theorem body_Write_fresh (b : String) :
    (ResponseWriter.fresh.Write b).body = b :=
  (Write_fresh b).2.1

theorem statusCode_fresh : ResponseWriter.fresh.statusCode = 200 := by
  simp [ResponseWriter.fresh, ResponseWriter.statusCode]

/-! ## Routing: `ServeHTTP` -/

/-- C8: `ServeHTTP` runs exactly one of its two handlers on every request: the
proxy handler when the request URL has a non-empty host and the API mux
otherwise. With handlers that record their invocation, the record is the single
entry `proxy` exactly when the host is non-empty and the single entry `mux`
exactly when it is empty; a request whose URL carries a host is proxied
whatever its path, so also for `/push`, `/poll`, `/clients` and `/metrics`. -/
theorem ServeHTTP_dispatch {α : Type} (h : httpHandler α) (w : ResponseWriter) (r : Request) :
    (r.URL.Host ≠ "" → ServeHTTP h w r = h.proxy w r)
    ∧ (r.URL.Host = "" → ServeHTTP h w r = h.mux w r)
    ∧ (ServeHTTP tracingHandler w r = [Route.proxy] ↔ r.URL.Host ≠ "")
    ∧ (ServeHTTP tracingHandler w r = [Route.mux] ↔ r.URL.Host = "")
    ∧ (∀ path ∈ ["/push", "/poll", "/clients", "/metrics"], r.URL.Host ≠ "" →
        ServeHTTP tracingHandler w { r with URL := { r.URL with Path := path } }
          = [Route.proxy]) := by
  refine ⟨?_, ?_, ?_, ?_, ?_⟩
  · intro hhost
    simp [ServeHTTP, hhost]
  · intro hhost
    simp [ServeHTTP, hhost]
  · by_cases hhost : r.URL.Host = "" <;> simp [ServeHTTP, tracingHandler, hhost]
  · by_cases hhost : r.URL.Host = "" <;> simp [ServeHTTP, tracingHandler, hhost]
  · intro path _ hhost
    simp [ServeHTTP, tracingHandler, hhost]

/-- C8 at concrete requests: `POST http://example.com/push` reaches the proxy
handler and `POST /push` reaches the mux. -/
theorem ServeHTTP_dispatch_witness :
    ServeHTTP tracingHandler ResponseWriter.fresh
        (Request.inbound "POST" ⟨"http", "example.com", "/push", ""⟩ "") = [Route.proxy]
    ∧ ServeHTTP tracingHandler ResponseWriter.fresh
        (Request.inbound "POST" ⟨"", "", "/push", ""⟩ "") = [Route.mux] :=
  ⟨((ServeHTTP_dispatch tracingHandler ResponseWriter.fresh
      (Request.inbound "POST" ⟨"http", "example.com", "/push", ""⟩ "")).2.2.1).mpr (by decide),
   ((ServeHTTP_dispatch tracingHandler ResponseWriter.fresh
      (Request.inbound "POST" ⟨"", "", "/push", ""⟩ "")).2.2.2.1).mpr (by decide)⟩

/-! ## `POST /push` -/

/-- C1: when the body of a push request does not parse as an HTTP response,
`handlePush` answers with status 500, makes no call to the coordinator (so
`ScrapeResult` is never reached) and leaves the coordinator state as it was. -/
theorem handlePush_malformed {σ : Type} (lib : StdLib) (c : Coordinator σ) (r : Request)
    (s : σ) (err : String) (hparse : lib.ReadResponse r.Body = .error err) :
    (handlePush lib c ResponseWriter.fresh r s).w.statusCode = 500
    ∧ (handlePush lib c ResponseWriter.fresh r s).calls = []
    ∧ (handlePush lib c ResponseWriter.fresh r s).state = s := by
  simp [handlePush, hparse, statusCode_Error_fresh _ 500 (by decide) (by decide)]

/-- C1 at a concrete request: the body `garbage` is refused with 500 and the
coordinator, which would have accepted any result, is not called. -/
theorem handlePush_malformed_witness :
    (handlePush sampleLib (fixedCoordinator none (.error "") (.error "") [])
        ResponseWriter.fresh (Request.inbound "POST" ⟨"", "", "/push", ""⟩ "garbage") 0).w.statusCode
      = 500
    ∧ (handlePush sampleLib (fixedCoordinator none (.error "") (.error "") [])
        ResponseWriter.fresh (Request.inbound "POST" ⟨"", "", "/push", ""⟩ "garbage") 0).calls = []
    ∧ (handlePush sampleLib (fixedCoordinator none (.error "") (.error "") [])
        ResponseWriter.fresh (Request.inbound "POST" ⟨"", "", "/push", ""⟩ "garbage") 0).state = 0 :=
  handlePush_malformed sampleLib (fixedCoordinator none (.error "") (.error "") [])
    (Request.inbound "POST" ⟨"", "", "/push", ""⟩ "garbage") 0
    ("malformed HTTP response " ++ Quote (fun _ => true) "garbage") (by
      simp [sampleLib, Request.inbound, pushedBytes])

/-- C2: the status of the answer to a push request is 200 exactly when the
body parses as an HTTP response and `ScrapeResult` returns no error on it; in
both other cases, a body that does not parse or an error from `ScrapeResult`,
the status is 500 and the body is `Error pushing: ` followed by the error
message and a newline. No status other than 200 and 500 is produced, and a
200 answer has an empty body. -/
theorem handlePush_status {σ : Type} (lib : StdLib) (c : Coordinator σ) (r : Request) (s : σ) :
    ((handlePush lib c ResponseWriter.fresh r s).w.statusCode = 200 ↔
        ∃ resp, lib.ReadResponse r.Body = .ok resp ∧ (c.ScrapeResult resp s).1 = none)
    ∧ ((handlePush lib c ResponseWriter.fresh r s).w.statusCode = 200
        ∨ (handlePush lib c ResponseWriter.fresh r s).w.statusCode = 500)
    ∧ (∀ err, lib.ReadResponse r.Body = .error err →
        (handlePush lib c ResponseWriter.fresh r s).w.statusCode = 500
        ∧ (handlePush lib c ResponseWriter.fresh r s).w.body = "Error pushing: " ++ err ++ "\n")
    ∧ (∀ resp err, lib.ReadResponse r.Body = .ok resp → (c.ScrapeResult resp s).1 = some err →
        (handlePush lib c ResponseWriter.fresh r s).w.statusCode = 500
        ∧ (handlePush lib c ResponseWriter.fresh r s).w.body = "Error pushing: " ++ err ++ "\n")
    ∧ ((handlePush lib c ResponseWriter.fresh r s).w.statusCode = 200 →
        (handlePush lib c ResponseWriter.fresh r s).w.body = "") := by
  cases hparse : lib.ReadResponse r.Body with
  | error e =>
    simp [handlePush, hparse, statusCode_Error_fresh _ 500 (by decide) (by decide),
      body_Error_fresh _ 500 (by decide) (by decide)]
  | ok resp =>
    rcases hres : c.ScrapeResult resp s with ⟨_ | e, s1⟩
    · have hout : handlePush lib c ResponseWriter.fresh r s
          = ⟨ResponseWriter.fresh, s1, [Call.ScrapeResult resp]⟩ := by
        simp [handlePush, hparse, hres]
      rw [hout]
      refine ⟨⟨fun _ => ⟨resp, rfl, by rw [hres]⟩, fun _ => statusCode_fresh⟩,
        Or.inl statusCode_fresh, fun err h => by simp at h, ?_, fun _ => rfl⟩
      intro resp1 err h1 h2
      simp only [Except.ok.injEq] at h1
      subst h1
      rw [hres] at h2
      simp at h2
    · have hout : handlePush lib c ResponseWriter.fresh r s
          = ⟨Error ResponseWriter.fresh ("Error pushing: " ++ e) 500, s1,
              [Call.ScrapeResult resp]⟩ := by
        simp [handlePush, hparse, hres]
      rw [hout]
      have hst : (Error ResponseWriter.fresh ("Error pushing: " ++ e) 500).statusCode = 500 :=
        statusCode_Error_fresh _ _ (by decide) (by decide)
      have hbody : (Error ResponseWriter.fresh ("Error pushing: " ++ e) 500).body
          = "Error pushing: " ++ e ++ "\n" := body_Error_fresh _ _ (by decide) (by decide)
      refine ⟨⟨fun h => ?_, ?_⟩, Or.inr hst, fun err h => by simp at h, ?_, fun h => ?_⟩
      · simp only [hst] at h
        exact absurd h (by decide)
      · rintro ⟨resp1, h1, h2⟩
        simp only [Except.ok.injEq] at h1
        subst h1
        rw [hres] at h2
        simp at h2
      · intro resp1 err h1 h2
        simp only [Except.ok.injEq] at h1
        subst h1
        rw [hres] at h2
        simp only [Option.some.injEq] at h2
        subst h2
        exact ⟨hst, hbody⟩
      · simp only [hst] at h
        exact absurd h (by decide)

/-- C2 at concrete requests: a well-formed push that the coordinator accepts
is answered 200, and the same push is answered 500 with the coordinator's
message when the coordinator refuses it. -/
theorem handlePush_status_witness :
    (handlePush sampleLib (fixedCoordinator none (.error "") (.error "") [])
        ResponseWriter.fresh (Request.inbound "POST" ⟨"", "", "/push", ""⟩ pushedBytes) 0).w.statusCode
      = 200
    ∧ (handlePush sampleLib (fixedCoordinator (some "unknown scrape id") (.error "") (.error "") [])
        ResponseWriter.fresh (Request.inbound "POST" ⟨"", "", "/push", ""⟩ pushedBytes) 0).w.body
      = "Error pushing: unknown scrape id\n" :=
  ⟨((handlePush_status sampleLib (fixedCoordinator none (.error "") (.error "") [])
      (Request.inbound "POST" ⟨"", "", "/push", ""⟩ pushedBytes) 0).1).mpr
      ⟨pushedResponse, by simp [sampleLib, Request.inbound], rfl⟩,
   ((handlePush_status sampleLib
      (fixedCoordinator (some "unknown scrape id") (.error "") (.error "") [])
      (Request.inbound "POST" ⟨"", "", "/push", ""⟩ pushedBytes) 0).2.2.2.1
      pushedResponse "unknown scrape id" (by simp [sampleLib, Request.inbound]) rfl).2⟩

/-! ## `POST /poll` -/

/-- C3: the status of the answer to a poll request is 408 exactly when
`WaitForScrapeInstruction` returns an error, and then the body is the error
message alone, no instruction; when it returns a request the status is 200 and
the body is what `WriteProxy` writes for that very request, which the handler
does not touch, so its `Id` header is serialized as the coordinator set it. -/
theorem handlePoll_status {σ : Type} (lib : StdLib) (c : Coordinator σ) (r : Request) (s : σ) :
    ((handlePoll lib c ResponseWriter.fresh r s).w.statusCode = 408 ↔
        ∃ err, (c.WaitForScrapeInstruction (TrimSpace r.Body) s).1 = .error err)
    ∧ (∀ err, (c.WaitForScrapeInstruction (TrimSpace r.Body) s).1 = .error err →
        (handlePoll lib c ResponseWriter.fresh r s).w.statusCode = 408
        ∧ (handlePoll lib c ResponseWriter.fresh r s).w.body
            = "Error WaitForScrapeInstruction: " ++ err ++ "\n")
    ∧ (∀ request, (c.WaitForScrapeInstruction (TrimSpace r.Body) s).1 = .ok request →
        (handlePoll lib c ResponseWriter.fresh r s).w.statusCode = 200
        ∧ (handlePoll lib c ResponseWriter.fresh r s).w.body = lib.WriteProxy request) := by
  rcases hres : c.WaitForScrapeInstruction (TrimSpace r.Body) s with ⟨e | request, s1⟩
  · have hout : handlePoll lib c ResponseWriter.fresh r s
        = ⟨Error ResponseWriter.fresh ("Error WaitForScrapeInstruction: " ++ e) 408, s1,
            [Call.WaitForScrapeInstruction (TrimSpace r.Body)]⟩ := by
      simp [handlePoll, hres]
    rw [hout]
    have hst : (Error ResponseWriter.fresh ("Error WaitForScrapeInstruction: " ++ e) 408).statusCode
        = 408 := statusCode_Error_fresh _ _ (by decide) (by decide)
    have hbody : (Error ResponseWriter.fresh ("Error WaitForScrapeInstruction: " ++ e) 408).body
        = "Error WaitForScrapeInstruction: " ++ e ++ "\n" := body_Error_fresh _ _ (by decide) (by decide)
    refine ⟨⟨fun _ => ⟨e, rfl⟩, fun _ => hst⟩, ?_, fun request h => by simp at h⟩
    intro err h
    simp only [Except.error.injEq] at h
    subst h
    exact ⟨hst, hbody⟩
  · have hout : handlePoll lib c ResponseWriter.fresh r s
        = ⟨ResponseWriter.fresh.Write (lib.WriteProxy request), s1,
            [Call.WaitForScrapeInstruction (TrimSpace r.Body)]⟩ := by
      simp [handlePoll, hres]
    rw [hout]
    have hst : (ResponseWriter.fresh.Write (lib.WriteProxy request)).statusCode = 200 :=
      statusCode_Write_fresh _
    refine ⟨⟨fun h => ?_, fun h => ?_⟩, fun err h => by simp at h, ?_⟩
    · simp only [hst] at h
      exact absurd h (by decide)
    · obtain ⟨err, h⟩ := h
      simp at h
    · intro request1 h
      simp only [Except.ok.injEq] at h
      subst h
      exact ⟨hst, body_Write_fresh _⟩

/-- C3 at concrete requests: a poll for `node1` that finds a pending scrape is
answered 200 with the written request, and one that finds none is answered
408. -/
theorem handlePoll_status_witness :
    (handlePoll sampleLib (fixedCoordinator none (.ok scrapeRequest) (.error "") [])
        ResponseWriter.fresh (Request.inbound "POST" ⟨"", "", "/poll", ""⟩ "node1") 0).w.body
      = "GET http://node1:9100/metrics HTTP/1.1\r\nHost: node1:9100\r\nId: 42\r\n\r\n"
    ∧ (handlePoll sampleLib (fixedCoordinator none (.error "timeout") (.error "") [])
        ResponseWriter.fresh (Request.inbound "POST" ⟨"", "", "/poll", ""⟩ "node1") 0).w.statusCode
      = 408 :=
  ⟨((handlePoll_status sampleLib (fixedCoordinator none (.ok scrapeRequest) (.error "") [])
      (Request.inbound "POST" ⟨"", "", "/poll", ""⟩ "node1") 0).2.2 scrapeRequest rfl).2,
   ((handlePoll_status sampleLib (fixedCoordinator none (.error "timeout") (.error "") [])
      (Request.inbound "POST" ⟨"", "", "/poll", ""⟩ "node1") 0).2.1 "timeout" rfl).1⟩

/-! ## Proxied scrapes: the copy of the response -/

/-- The header loop of `copyHTTPResponse` over the entries `l` changes the
header map of the writer and nothing else; the map then holds every entry of
`l`, and what the writer held under the other keys. -/
theorem copy_header_loop (l : List (Sigma fun _ : String => List String)) :
    ∀ (w : ResponseWriter), l.NodupKeys →
      ∃ H : Header,
        l.foldl (fun (w : ResponseWriter) kv =>
          { w with header := w.header.insert kv.1 kv.2 }) w = { w with header := H }
        ∧ ∀ k, H.lookup k = (l.dlookup k <|> w.header.lookup k) := by
  induction l with
  | nil => intro w _; exact ⟨w.header, rfl, by simp⟩
  | cons e t ih =>
    intro w hnd
    rw [List.nodupKeys_cons] at hnd
    obtain ⟨H, hfold, hk⟩ := ih { w with header := w.header.insert e.1 e.2 } hnd.2
    refine ⟨H, ?_, fun k => ?_⟩
    · rw [List.foldl_cons, hfold]
    · rw [hk k]
      by_cases hke : k = e.1
      · subst hke
        have hnone : List.dlookup e.1 t = none := List.dlookup_eq_none.mpr hnd.1
        obtain ⟨a, b⟩ := e
        simp [hnone, List.dlookup_cons_eq]
      · obtain ⟨a, b⟩ := e
        simp only [AList.lookup_insert_ne hke]
        rw [List.dlookup_cons_ne _ _ hke]

/-- Header maps with the same values under every key give the same `Get`. -/
theorem Get_congr (H K : Header) (h : ∀ k, H.lookup k = K.lookup k) (key : String) :
    H.Get key = K.Get key := by
  simp only [Header.Get, h key]

/-- Header maps with the same values under every key declare the same length. -/
theorem declaredLength_congr (H K : Header) (h : ∀ k, H.lookup k = K.lookup k) :
    declaredLength H = declaredLength K := by
  simp only [declaredLength, Get_congr H K h]

/-- The function `copyHTTPResponse` on a fresh writer: the status write and the
body write on a writer whose header map holds the headers of the response. -/
theorem copyHTTPResponse_fresh (resp : Response) :
    ∃ H : Header, (∀ k, H.lookup k = resp.Header.lookup k)
      ∧ copyHTTPResponse resp ResponseWriter.fresh
        = (({ ResponseWriter.fresh with header := H }).WriteHeader resp.StatusCode).Write
            resp.Body := by
  obtain ⟨H, hfold, hk⟩ :=
    copy_header_loop resp.Header.entries ResponseWriter.fresh resp.Header.nodupKeys
  refine ⟨H, fun k => ?_, ?_⟩
  · rw [hk k]
    simp [ResponseWriter.fresh, AList.lookup]
  · simp only [copyHTTPResponse, hfold]

/-- A status write with a code that becomes the final status, on a writer that
has written none. -/
theorem WriteHeader_final (w : ResponseWriter) (code : Int) (hp : w.panicked = false)
    (hw : w.wroteHeader = false) (hnone : w.contentLength = none)
    (hcode : code = 101 ∨ (200 ≤ code ∧ code ≤ 999)) :
    (w.WriteHeader code).wroteHeader = true
    ∧ (w.WriteHeader code).status = code
    ∧ (w.WriteHeader code).sent = w.header
    ∧ (w.WriteHeader code).body = w.body
    ∧ (w.WriteHeader code).interim = w.interim
    ∧ (w.WriteHeader code).panicked = false
    ∧ (w.WriteHeader code).contentLength = declaredLength w.header
    ∧ (w.WriteHeader code).written = w.written := by
  have h1 : ¬ (code < 100 ∨ 999 < code) := by omega
  have h2 : ¬ (100 ≤ code ∧ code ≤ 199 ∧ code ≠ 101) := by omega
  simp only [ResponseWriter.WriteHeader, hp, hw, h1, h2, declaredLength]
  by_cases hcl : w.header.Get "Content-Length" = ""
  · simp [hcl, hp, hnone]
  · simp only [hcl, if_false]
    cases hparse : ParseInt (w.header.Get "Content-Length") with
    | none => simp [hp, hnone]
    | some v =>
      by_cases hv : 0 ≤ v
      · simp [hv, hp]
      · simp [hv, hp, hnone]

/-- A body write on a writer that has written its final status: nothing but
the body and the count of bytes offered changes; the bytes are appended when
the status allows a body and the bytes offered so far fit the declared length,
and refused when the status allows no body. -/
theorem Write_written (w : ResponseWriter) (b : String) (hp : w.panicked = false)
    (hw : w.wroteHeader = true) :
    (w.Write b).wroteHeader = true
    ∧ (w.Write b).status = w.status
    ∧ (w.Write b).sent = w.sent
    ∧ (w.Write b).interim = w.interim
    ∧ (w.Write b).panicked = false
    ∧ (bodyAllowedForStatus w.status = true →
        (∀ n, w.contentLength = some n → w.written + (b.utf8ByteSize : Int) ≤ n) →
        (w.Write b).body = w.body ++ b)
    ∧ (bodyAllowedForStatus w.status = false → (w.Write b).body = w.body) := by
  by_cases hb : b = ""
  · simp [ResponseWriter.Write, hp, hw, hb]
  · by_cases ha : bodyAllowedForStatus w.status = true
    · have ha2 : ¬ (bodyAllowedForStatus w.status = false) := by simp [ha]
      simp only [ResponseWriter.Write, hp, hw, hb, ha2, if_false, if_true, Bool.false_eq_true]
      cases hcl : w.contentLength with
      | none => simp [hp, hw, ha]
      | some n =>
        by_cases hfit : n < w.written + (b.utf8ByteSize : Int)
        · simp only [hfit, if_true]
          refine ⟨by simp [hw], by simp, by simp, by simp, by simp [hp], ?_, ?_⟩
          · intro _ hall
            have := hall n rfl
            omega
          · intro hf
            simp [ha] at hf
        · simp [hfit, hp, hw, ha]
    · have ha2 : bodyAllowedForStatus w.status = false := by simpa using ha
      simp [ResponseWriter.Write, hp, hw, hb, ha2]

/-- A body write on a writer that has written no status is the write after
the implicit status 200. -/
theorem Write_implicit (w : ResponseWriter) (b : String) (hp : w.panicked = false)
    (hw : w.wroteHeader = false) (hnone : w.contentLength = none) :
    w.Write b = (w.WriteHeader 200).Write b := by
  obtain ⟨hw2, _, _, _, _, hp2, _, _⟩ :=
    WriteHeader_final w 200 hp hw hnone (Or.inr (by decide))
  simp only [ResponseWriter.Write, hp, hw, hp2, hw2, if_true, if_false, Bool.false_eq_true]

/-- The status write and the body write of `copyHTTPResponse` on a writer that
has written nothing, by the class of the status code. -/
theorem copy_writes (w : ResponseWriter) (code : Int) (body : String)
    (hp : w.panicked = false) (hw : w.wroteHeader = false) (hnone : w.contentLength = none)
    (hbody : w.body = "") (hint : w.interim = []) (hwr : w.written = 0) :
    (100 ≤ code ∧ code ≤ 999 →
      ((w.WriteHeader code).Write body).panicked = false
      ∧ ((w.WriteHeader code).Write body).sentHeader = w.header)
    ∧ (code = 101 ∨ (200 ≤ code ∧ code ≤ 999) →
      ((w.WriteHeader code).Write body).statusCode = code
      ∧ ((w.WriteHeader code).Write body).interim = [])
    ∧ (100 ≤ code ∧ code ≤ 199 ∧ code ≠ 101 →
      ((w.WriteHeader code).Write body).statusCode = 200
      ∧ ((w.WriteHeader code).Write body).interim.map Prod.fst = [code])
    ∧ (code < 100 ∨ 999 < code →
      ((w.WriteHeader code).Write body).panicked = true
      ∧ ((w.WriteHeader code).Write body).wroteHeader = false
      ∧ ((w.WriteHeader code).Write body).interim = []
      ∧ ((w.WriteHeader code).Write body).body = "")
    ∧ (100 ≤ code ∧ code ≤ 999 →
      bodyAllowedForStatus ((w.WriteHeader code).Write body).statusCode = true →
      (∀ n, declaredLength w.header = some n → (body.utf8ByteSize : Int) ≤ n) →
      ((w.WriteHeader code).Write body).body = body)
    ∧ (100 ≤ code ∧ code ≤ 999 →
      bodyAllowedForStatus ((w.WriteHeader code).Write body).statusCode = false →
      ((w.WriteHeader code).Write body).body = "") := by
  by_cases hinv : code < 100 ∨ 999 < code
  · -- the status write panics
    have hwh : w.WriteHeader code = { w with panicked := true } := by
      simp [ResponseWriter.WriteHeader, hp, hw, hinv]
    have hout : (w.WriteHeader code).Write body = { w with panicked := true } := by
      rw [hwh]
      simp [ResponseWriter.Write]
    rw [hout]
    refine ⟨fun h => ?_, fun h => ?_, fun h => ?_, fun _ => ⟨rfl, hw, hint, hbody⟩,
      fun h => ?_, fun h => ?_⟩ <;> omega
  · by_cases hinterim : 100 ≤ code ∧ code ≤ 199 ∧ code ≠ 101
    · -- an informational response, then the implicit status 200
      have hwh : w.WriteHeader code
          = { w with interim := w.interim
                ++ [(code, (w.header.Del "Content-Length").Del "Transfer-Encoding")] } := by
        simp [ResponseWriter.WriteHeader, hp, hw, hinv, hinterim]
      rw [hwh, Write_implicit { w with interim := w.interim
            ++ [(code, (w.header.Del "Content-Length").Del "Transfer-Encoding")] } body
          hp hw hnone]
      obtain ⟨hw2, hst2, hsent2, hbody2, hint2, hp2, hcl2, hwr2⟩ :=
        WriteHeader_final { w with interim := w.interim
            ++ [(code, (w.header.Del "Content-Length").Del "Transfer-Encoding")] } 200
          hp hw hnone (Or.inr (by decide))
      obtain ⟨hw3, hst3, hsent3, hint3, hp3, hfit3, hno3⟩ :=
        Write_written _ body hp2 hw2
      have hstatus : (ResponseWriter.Write (ResponseWriter.WriteHeader
          { w with interim := w.interim
            ++ [(code, (w.header.Del "Content-Length").Del "Transfer-Encoding")] } 200)
          body).statusCode = 200 := by
        simp only [ResponseWriter.statusCode, hw3, hst3, hst2, if_true]
      refine ⟨fun _ => ⟨hp3, ?_⟩, fun h => ?_, fun _ => ⟨hstatus, ?_⟩, fun h => ?_,
        fun _ _ hfits => ?_, fun _ hf => ?_⟩
      · simp only [ResponseWriter.sentHeader, hw3, hsent3, hsent2, if_true]
      · omega
      · rw [hint3, hint2]
        simp [hint]
      · exact absurd h hinv
      · have := hfit3 (by rw [hst2]; decide) (by
          intro n hn
          rw [hcl2] at hn
          rw [hwr2]
          have := hfits n hn
          simp only [hwr]
          omega)
        rw [this, hbody2]
        simp [hbody]
      · rw [hstatus] at hf
        exact absurd hf (by decide)
    · -- the final status
      have hfinal : code = 101 ∨ (200 ≤ code ∧ code ≤ 999) := by omega
      obtain ⟨hw2, hst2, hsent2, hbody2, hint2, hp2, hcl2, hwr2⟩ :=
        WriteHeader_final w code hp hw hnone hfinal
      obtain ⟨hw3, hst3, hsent3, hint3, hp3, hfit3, hno3⟩ :=
        Write_written (w.WriteHeader code) body hp2 hw2
      have hstatus : ((w.WriteHeader code).Write body).statusCode = code := by
        simp only [ResponseWriter.statusCode, hw3, hst3, hst2, if_true]
      refine ⟨fun _ => ⟨hp3, ?_⟩, fun _ => ⟨hstatus, ?_⟩, fun h => absurd h hinterim,
        fun h => absurd h hinv, fun _ ha hfits => ?_, fun _ hf => ?_⟩
      · simp only [ResponseWriter.sentHeader, hw3, hsent3, hsent2, if_true]
      · rw [hint3, hint2, hint]
      · rw [hstatus] at ha
        have := hfit3 (by rw [hst2]; exact ha) (by
          intro n hn
          rw [hcl2] at hn
          rw [hwr2]
          have := hfits n hn
          simp only [hwr]
          omega)
        rw [this, hbody2]
        simp [hbody]
      · rw [hstatus] at hf
        have := hno3 (by rw [hst2]; exact hf)
        rw [this, hbody2, hbody]

/-- What `copyHTTPResponse` leaves in a fresh writer, by the class of the
status code of the response. -/
theorem copyHTTPResponse_spec (resp : Response) :
    (100 ≤ resp.StatusCode ∧ resp.StatusCode ≤ 999 →
      (copyHTTPResponse resp ResponseWriter.fresh).panicked = false
      ∧ ∀ k, (copyHTTPResponse resp ResponseWriter.fresh).sentHeader.lookup k
          = resp.Header.lookup k)
    ∧ (resp.StatusCode = 101 ∨ (200 ≤ resp.StatusCode ∧ resp.StatusCode ≤ 999) →
      (copyHTTPResponse resp ResponseWriter.fresh).statusCode = resp.StatusCode
      ∧ (copyHTTPResponse resp ResponseWriter.fresh).interim = [])
    ∧ (100 ≤ resp.StatusCode ∧ resp.StatusCode ≤ 199 ∧ resp.StatusCode ≠ 101 →
      (copyHTTPResponse resp ResponseWriter.fresh).statusCode = 200
      ∧ (copyHTTPResponse resp ResponseWriter.fresh).interim.map Prod.fst = [resp.StatusCode])
    ∧ (resp.StatusCode < 100 ∨ 999 < resp.StatusCode →
      (copyHTTPResponse resp ResponseWriter.fresh).panicked = true
      ∧ (copyHTTPResponse resp ResponseWriter.fresh).wroteHeader = false
      ∧ (copyHTTPResponse resp ResponseWriter.fresh).interim = []
      ∧ (copyHTTPResponse resp ResponseWriter.fresh).body = "")
    ∧ (100 ≤ resp.StatusCode ∧ resp.StatusCode ≤ 999 →
      bodyAllowedForStatus (copyHTTPResponse resp ResponseWriter.fresh).statusCode = true →
      (∀ n, declaredLength resp.Header = some n → (resp.Body.utf8ByteSize : Int) ≤ n) →
      (copyHTTPResponse resp ResponseWriter.fresh).body = resp.Body)
    ∧ (100 ≤ resp.StatusCode ∧ resp.StatusCode ≤ 999 →
      bodyAllowedForStatus (copyHTTPResponse resp ResponseWriter.fresh).statusCode = false →
      (copyHTTPResponse resp ResponseWriter.fresh).body = "") := by
  obtain ⟨H, hk, hcopy⟩ := copyHTTPResponse_fresh resp
  obtain ⟨h1, h2, h3, h4, h5, h6⟩ :=
    copy_writes { ResponseWriter.fresh with header := H } resp.StatusCode resp.Body
      rfl rfl rfl rfl rfl rfl
  rw [hcopy]
  refine ⟨fun hc => ⟨(h1 hc).1, fun k => ?_⟩, h2, h3, h4, fun hc ha hfits => ?_, h6⟩
  · rw [(h1 hc).2]
    exact hk k
  · refine h5 hc ha (fun n hn => hfits n ?_)
    rw [← declaredLength_congr H resp.Header hk]
    exact hn

/-- The method `handleProxy` in terms of the context and the request it hands
to `DoScrape`. -/
theorem handleProxy_eq {σ : Type} (lib : StdLib) (policy : TimeoutPolicy)
    (flags : Flags) (c : Coordinator σ) (w : ResponseWriter) (r : Request) (s : σ) :
    handleProxy lib policy flags c w r s
      = match c.DoScrape (proxyContext policy flags r) (proxyRequest policy flags r) s with
        | (.error err, s1) =>
          ⟨Error w ("Error scraping " ++ Quote lib.isPrintWide (lib.URLString r.URL)
              ++ ": " ++ err) 500, s1,
            [Call.DoScrape (proxyContext policy flags r) (proxyRequest policy flags r)]⟩
        | (.ok resp, s1) =>
          ⟨copyHTTPResponse resp w, s1,
            [Call.DoScrape (proxyContext policy flags r) (proxyRequest policy flags r)]⟩ :=
  rfl

/-- The coordinator call `handleProxy` makes. -/
theorem handleProxy_calls {σ : Type} (lib : StdLib) (policy : TimeoutPolicy)
    (flags : Flags) (c : Coordinator σ) (w : ResponseWriter) (r : Request) (s : σ) :
    (handleProxy lib policy flags c w r s).calls
      = [Call.DoScrape (proxyContext policy flags r) (proxyRequest policy flags r)] := by
  rw [handleProxy_eq]
  split <;> rfl

/-- The outcome of `handleProxy` when `DoScrape` returns a response. -/
theorem handleProxy_ok {σ : Type} (lib : StdLib) (policy : TimeoutPolicy)
    (flags : Flags) (c : Coordinator σ) (w : ResponseWriter) (r : Request) (s : σ)
    (resp : Response)
    (hres : (c.DoScrape (proxyContext policy flags r) (proxyRequest policy flags r) s).1
      = .ok resp) :
    (handleProxy lib policy flags c w r s).w = copyHTTPResponse resp w := by
  rw [handleProxy_eq]
  rcases hd : c.DoScrape (proxyContext policy flags r) (proxyRequest policy flags r) s
    with ⟨e | resp1, s1⟩
  · rw [hd] at hres
    simp at hres
  · rw [hd] at hres
    simp only [Except.ok.injEq] at hres
    subst hres
    rfl

/-- The outcome of `handleProxy` when `DoScrape` returns an error. -/
theorem handleProxy_error {σ : Type} (lib : StdLib) (policy : TimeoutPolicy)
    (flags : Flags) (c : Coordinator σ) (w : ResponseWriter) (r : Request) (s : σ)
    (err : String)
    (hres : (c.DoScrape (proxyContext policy flags r) (proxyRequest policy flags r) s).1
      = .error err) :
    (handleProxy lib policy flags c w r s).w
      = Error w ("Error scraping " ++ Quote lib.isPrintWide (lib.URLString r.URL)
          ++ ": " ++ err) 500 := by
  rw [handleProxy_eq]
  rcases hd : c.DoScrape (proxyContext policy flags r) (proxyRequest policy flags r) s
    with ⟨e | resp1, s1⟩
  · rw [hd] at hres
    simp only [Except.error.injEq] at hres
    subst hres
    rfl
  · rw [hd] at hres
    simp at hres

/-- C4 as amended: when `DoScrape` returns a response without error and its
status code is one the writer takes as the final status (101, or 200 to 999),
`handleProxy` copies it to the caller as it is: the status written is the
status code of the response; every header key of the response is in the
headers handed over at the status write with the value list the response has
for it (and those headers hold nothing else); the body written is the body of
the response whenever the status allows a body and the body is no longer than
a `Content-Length` the response declares, as holds of every response that
`http.ReadResponse` returns, and no body byte is written for a status that
allows none (1xx, 204, 304). For a status code from 100 to 199 other than 101
the code goes out as an informational response and the final status is 200,
with the headers and the body of the response. For a status code below 100 or
above 999 `WriteHeader` panics: no status, no header and no body is written. -/
theorem handleProxy_copies_response {σ : Type} (lib : StdLib) (policy : TimeoutPolicy)
    (flags : Flags) (c : Coordinator σ) (r : Request) (s : σ) (resp : Response)
    (hres : (c.DoScrape (proxyContext policy flags r) (proxyRequest policy flags r) s).1
      = .ok resp) :
    (100 ≤ resp.StatusCode ∧ resp.StatusCode ≤ 999 →
      (handleProxy lib policy flags c ResponseWriter.fresh r s).w.panicked = false
      ∧ (∀ k vs, resp.Header.lookup k = some vs →
          (handleProxy lib policy flags c ResponseWriter.fresh r s).w.sentHeader.lookup k
            = some vs)
      ∧ (∀ k, (handleProxy lib policy flags c ResponseWriter.fresh r s).w.sentHeader.lookup k
          = resp.Header.lookup k))
    ∧ (resp.StatusCode = 101 ∨ (200 ≤ resp.StatusCode ∧ resp.StatusCode ≤ 999) →
      (handleProxy lib policy flags c ResponseWriter.fresh r s).w.statusCode = resp.StatusCode
      ∧ (handleProxy lib policy flags c ResponseWriter.fresh r s).w.interim = [])
    ∧ (100 ≤ resp.StatusCode ∧ resp.StatusCode ≤ 199 ∧ resp.StatusCode ≠ 101 →
      (handleProxy lib policy flags c ResponseWriter.fresh r s).w.statusCode = 200
      ∧ (handleProxy lib policy flags c ResponseWriter.fresh r s).w.interim.map Prod.fst
          = [resp.StatusCode])
    ∧ (resp.StatusCode < 100 ∨ 999 < resp.StatusCode →
      (handleProxy lib policy flags c ResponseWriter.fresh r s).w.panicked = true
      ∧ (handleProxy lib policy flags c ResponseWriter.fresh r s).w.wroteHeader = false
      ∧ (handleProxy lib policy flags c ResponseWriter.fresh r s).w.interim = []
      ∧ (handleProxy lib policy flags c ResponseWriter.fresh r s).w.body = "")
    ∧ (100 ≤ resp.StatusCode ∧ resp.StatusCode ≤ 999 →
      bodyAllowedForStatus
        (handleProxy lib policy flags c ResponseWriter.fresh r s).w.statusCode = true →
      (∀ n, declaredLength resp.Header = some n → (resp.Body.utf8ByteSize : Int) ≤ n) →
      (handleProxy lib policy flags c ResponseWriter.fresh r s).w.body = resp.Body)
    ∧ (100 ≤ resp.StatusCode ∧ resp.StatusCode ≤ 999 →
      bodyAllowedForStatus
        (handleProxy lib policy flags c ResponseWriter.fresh r s).w.statusCode = false →
      (handleProxy lib policy flags c ResponseWriter.fresh r s).w.body = "") := by
  rw [handleProxy_ok lib policy flags c ResponseWriter.fresh r s resp hres]
  obtain ⟨h1, h2, h3, h4, h5, h6⟩ := copyHTTPResponse_spec resp
  refine ⟨fun hc => ⟨(h1 hc).1, fun k vs h => ?_, (h1 hc).2⟩, h2, h3, h4, h5, h6⟩
  rw [(h1 hc).2 k, h]

/-- C4 at a concrete scrape: the response of `node1`, with status 200, a
`Content-Type` and a `Content-Length` header and a body of that length, reaches
the caller with its status, its headers and its body. -/
theorem handleProxy_copies_response_witness :
    (handleProxy sampleLib (policyOf none) Flags.default
        (fixedCoordinator none (.error "") (.ok scrapedResponse) [])
        ResponseWriter.fresh proxiedScrape 0).w.statusCode = 200
    ∧ (handleProxy sampleLib (policyOf none) Flags.default
        (fixedCoordinator none (.error "") (.ok scrapedResponse) [])
        ResponseWriter.fresh proxiedScrape 0).w.sentHeader.lookup "Content-Type"
      = some ["text/plain"]
    ∧ (handleProxy sampleLib (policyOf none) Flags.default
        (fixedCoordinator none (.error "") (.ok scrapedResponse) [])
        ResponseWriter.fresh proxiedScrape 0).w.body = "up 1\n" :=
  ⟨((handleProxy_copies_response sampleLib (policyOf none) Flags.default
      (fixedCoordinator none (.error "") (.ok scrapedResponse) []) proxiedScrape 0
      scrapedResponse rfl).2.1 (by decide)).1,
   ((handleProxy_copies_response sampleLib (policyOf none) Flags.default
      (fixedCoordinator none (.error "") (.ok scrapedResponse) []) proxiedScrape 0
      scrapedResponse rfl).1 (by decide)).2.1 "Content-Type" ["text/plain"] (by decide),
   (handleProxy_copies_response sampleLib (policyOf none) Flags.default
      (fixedCoordinator none (.error "") (.ok scrapedResponse) []) proxiedScrape 0
      scrapedResponse rfl).2.2.2.2.1 (by decide) (by decide) (by decide)⟩

/-- C4 as stated fails: the pushed response `HTTP/1.1 000 X` with body `up 1`
parses to a response with status code 0, and `handleProxy`, handed that
response by `DoScrape`, panics in `WriteHeader`: no status is written and no
byte of the body, so the body written is not the body of the response; the
pushed response `HTTP/1.1 103 Early Hints` reaches the caller as an
informational response followed by the final status 200, not 103. -/
theorem handleProxy_copies_response_counterexample :
    ((fixedCoordinator none (.error "") (.ok zeroStatusResponse) []).DoScrape
        (proxyContext (policyOf none) Flags.default proxiedScrape)
        (proxyRequest (policyOf none) Flags.default proxiedScrape) 0).1 = .ok zeroStatusResponse
    ∧ (handleProxy sampleLib (policyOf none) Flags.default
        (fixedCoordinator none (.error "") (.ok zeroStatusResponse) [])
        ResponseWriter.fresh proxiedScrape 0).w.panicked = true
    ∧ (handleProxy sampleLib (policyOf none) Flags.default
        (fixedCoordinator none (.error "") (.ok zeroStatusResponse) [])
        ResponseWriter.fresh proxiedScrape 0).w.wroteHeader = false
    ∧ (handleProxy sampleLib (policyOf none) Flags.default
        (fixedCoordinator none (.error "") (.ok zeroStatusResponse) [])
        ResponseWriter.fresh proxiedScrape 0).w.body ≠ zeroStatusResponse.Body
    ∧ ((fixedCoordinator none (.error "") (.ok earlyHintsResponse) []).DoScrape
        (proxyContext (policyOf none) Flags.default proxiedScrape)
        (proxyRequest (policyOf none) Flags.default proxiedScrape) 0).1 = .ok earlyHintsResponse
    ∧ (handleProxy sampleLib (policyOf none) Flags.default
        (fixedCoordinator none (.error "") (.ok earlyHintsResponse) [])
        ResponseWriter.fresh proxiedScrape 0).w.statusCode = 200
    ∧ (handleProxy sampleLib (policyOf none) Flags.default
        (fixedCoordinator none (.error "") (.ok earlyHintsResponse) [])
        ResponseWriter.fresh proxiedScrape 0).w.statusCode ≠ earlyHintsResponse.StatusCode := by
  refine ⟨rfl, by decide, by decide, by decide, rfl, by decide, by decide⟩

/-! ## `strings.TrimSpace` -/

/-- On ASCII characters the `asciiSpace` table agrees with `unicode.IsSpace`. -/
theorem asciiSpace_eq_IsSpace (c : Char) (h : ¬ 0x80 ≤ c.toNat) : asciiSpace c = IsSpace c := by
  have h1 : c.toNat ≤ 0xFF := by omega
  have h2 : c.toNat ≠ 0x85 := by omega
  have h3 : c.toNat ≠ 0xA0 := by omega
  simp [asciiSpace, IsSpace, h1, h2, h3]

/-- The second loop of `TrimSpace` removes the trailing white space. -/
theorem trimSpaceStop_eq (l : List Char) :
    trimSpaceStop l = l.reverse.rdropWhile IsSpace := by
  induction l with
  | nil => simp [trimSpaceStop]
  | cons c rest ih =>
    rw [trimSpaceStop]
    by_cases hc : 0x80 ≤ c.toNat
    · simp [hc, TrimRightFunc]
    · rw [if_neg hc, asciiSpace_eq_IsSpace c hc]
      by_cases hs : IsSpace c = true
      · rw [if_pos hs, ih, List.reverse_cons, List.rdropWhile_concat_pos _ _ _ hs]
      · rw [if_neg hs, List.reverse_cons, List.rdropWhile_concat_neg _ _ _ hs]

/-- The two loops of `TrimSpace` remove the leading and the trailing white
space. -/
theorem trimSpaceStart_eq (l : List Char) :
    trimSpaceStart l = (l.dropWhile IsSpace).rdropWhile IsSpace := by
  induction l with
  | nil => simp [trimSpaceStart, trimSpaceStop]
  | cons c rest ih =>
    rw [trimSpaceStart]
    by_cases hc : 0x80 ≤ c.toNat
    · simp [hc, TrimFunc, TrimRightFunc, TrimLeftFunc]
    · rw [if_neg hc, asciiSpace_eq_IsSpace c hc]
      by_cases hs : IsSpace c = true
      · rw [if_pos hs, ih, List.dropWhile_cons_of_pos hs]
      · rw [if_neg hs, trimSpaceStop_eq, List.reverse_reverse, List.dropWhile_cons_of_neg hs]

/-- The first character left by trimming both ends does not satisfy the
predicate. -/
theorem trim_head_not (p : Char → Bool) (l : List Char) (c : Char) (rest : List Char)
    (h : (l.dropWhile p).rdropWhile p = c :: rest) : p c = false := by
  have hpre : (l.dropWhile p).rdropWhile p <+: l.dropWhile p := List.rdropWhile_prefix p _
  rw [h] at hpre
  obtain ⟨t, ht⟩ := hpre
  have hne : l.dropWhile p ≠ [] := by
    rw [← ht]
    simp
  have hhead := List.head_dropWhile_not p l hne
  have : (l.dropWhile p).head hne = c := by
    simp [← ht]
  rw [this] at hhead
  exact hhead

/-- Trimming both ends of a list a second time changes nothing. -/
theorem trim_idempotent (p : Char → Bool) (l : List Char) :
    (((l.dropWhile p).rdropWhile p).dropWhile p).rdropWhile p
      = (l.dropWhile p).rdropWhile p := by
  have hleft : ((l.dropWhile p).rdropWhile p).dropWhile p = (l.dropWhile p).rdropWhile p := by
    cases h : (l.dropWhile p).rdropWhile p with
    | nil => rfl
    | cons c rest =>
      have hc := trim_head_not p l c rest h
      rw [List.dropWhile_cons_of_neg (by simp [hc])]
  rw [hleft, List.rdropWhile_idempotent]

/-- Trailing elements that satisfy the predicate do not change what
`rdropWhile` leaves. -/
theorem rdropWhile_append_of_pos (p : Char → Bool) (l post : List Char)
    (h : ∀ a ∈ post, p a = true) : (l ++ post).rdropWhile p = l.rdropWhile p := by
  unfold List.rdropWhile
  rw [List.reverse_append, List.dropWhile_append_of_pos]
  intro a ha
  exact h a (List.mem_reverse.mp ha)

/-- Trimming both ends ignores surrounding elements that satisfy the
predicate. -/
theorem trim_surrounded (p : Char → Bool) (pre l post : List Char)
    (hpre : ∀ a ∈ pre, p a = true) (hpost : ∀ a ∈ post, p a = true) :
    ((pre ++ l ++ post).dropWhile p).rdropWhile p = (l.dropWhile p).rdropWhile p := by
  rw [List.append_assoc, List.dropWhile_append_of_pos hpre, List.dropWhile_append]
  split
  · rename_i hempty
    have hnil : l.dropWhile p = [] := by simpa using hempty
    rw [hnil, List.rdropWhile_nil]
    rw [List.rdropWhile_eq_nil_iff]
    intro x hx
    have hsub : x ∈ post := (List.dropWhile_suffix p).subset hx
    exact hpost x hsub
  · exact rdropWhile_append_of_pos p _ post hpost

/-- A list is what trimming both ends leaves, between a run of elements that
satisfy the predicate and another. -/
theorem trim_decompose (p : Char → Bool) (l : List Char) :
    l = l.takeWhile p ++ (l.dropWhile p).rdropWhile p ++ (l.dropWhile p).rtakeWhile p := by
  have hright : ∀ m : List Char, m.rdropWhile p ++ m.rtakeWhile p = m := by
    intro m
    unfold List.rdropWhile List.rtakeWhile
    rw [← List.reverse_append, List.takeWhile_append_dropWhile, List.reverse_reverse]
  rw [List.append_assoc, hright, List.takeWhile_append_dropWhile]

/-- The text `TrimSpace` returns, by `dropWhile` from both ends. -/
theorem TrimSpace_data (b : String) :
    (TrimSpace b).data = (b.data.dropWhile IsSpace).rdropWhile IsSpace := by
  simp [TrimSpace, trimSpaceStart_eq]

/-- C7: the target identifier `handlePoll` hands to `WaitForScrapeInstruction`
is the request body with its leading and trailing white space removed: the
body is the identifier between two runs of white space, the identifier neither
starts nor ends with white space, trimming it again changes nothing, and a
body that differs from another only in surrounding white space polls the same
target with the same outcome. -/
theorem handlePoll_target {σ : Type} (lib : StdLib) (c : Coordinator σ) (r : Request) (s : σ) :
    (handlePoll lib c ResponseWriter.fresh r s).calls
      = [Call.WaitForScrapeInstruction (TrimSpace r.Body)]
    ∧ (∃ pre post : List Char, (∀ a ∈ pre, IsSpace a = true) ∧ (∀ a ∈ post, IsSpace a = true)
        ∧ r.Body.data = pre ++ (TrimSpace r.Body).data ++ post)
    ∧ (∀ a rest, (TrimSpace r.Body).data = a :: rest → IsSpace a = false)
    ∧ (∀ hne : (TrimSpace r.Body).data ≠ [],
        IsSpace ((TrimSpace r.Body).data.getLast hne) = false)
    ∧ TrimSpace (TrimSpace r.Body) = TrimSpace r.Body
    ∧ (∀ pre post : String, (∀ a ∈ pre.data, IsSpace a = true) →
        (∀ a ∈ post.data, IsSpace a = true) →
        TrimSpace (pre ++ r.Body ++ post) = TrimSpace r.Body
        ∧ handlePoll lib c ResponseWriter.fresh { r with Body := pre ++ r.Body ++ post } s
            = handlePoll lib c ResponseWriter.fresh r s) := by
  have hsur : ∀ pre post : String, (∀ a ∈ pre.data, IsSpace a = true) →
      (∀ a ∈ post.data, IsSpace a = true) →
      TrimSpace (pre ++ r.Body ++ post) = TrimSpace r.Body := by
    intro pre post hpre hpost
    apply String.ext
    rw [TrimSpace_data, TrimSpace_data, String.data_append, String.data_append]
    exact trim_surrounded IsSpace pre.data r.Body.data post.data hpre hpost
  refine ⟨?_, ?_, ?_, ?_, ?_, ?_⟩
  · simp only [handlePoll]
    split <;> rfl
  · refine ⟨r.Body.data.takeWhile IsSpace, (r.Body.data.dropWhile IsSpace).rtakeWhile IsSpace,
      fun a ha => List.mem_takeWhile_imp ha, fun a ha => List.mem_rtakeWhile_imp ha, ?_⟩
    rw [TrimSpace_data]
    exact trim_decompose IsSpace r.Body.data
  · intro a rest h
    rw [TrimSpace_data] at h
    exact trim_head_not IsSpace r.Body.data a rest h
  · intro hne
    have hne2 : (r.Body.data.dropWhile IsSpace).rdropWhile IsSpace ≠ [] := by
      rw [← TrimSpace_data]
      exact hne
    have hlast := List.rdropWhile_last_not IsSpace (r.Body.data.dropWhile IsSpace) hne2
    have heq : (TrimSpace r.Body).data.getLast hne
        = ((r.Body.data.dropWhile IsSpace).rdropWhile IsSpace).getLast hne2 := by
      congr 1
      exact TrimSpace_data r.Body
    rw [heq]
    simpa using hlast
  · apply String.ext
    rw [TrimSpace_data, TrimSpace_data]
    exact trim_idempotent IsSpace r.Body.data
  · intro pre post hpre hpost
    refine ⟨hsur pre post hpre hpost, ?_⟩
    simp only [handlePoll, hsur pre post hpre hpost]

/-- C7 at concrete bodies: the body ` node1` followed by a newline polls the
target `node1`, with the outcome of the body `node1`. -/
theorem handlePoll_target_witness :
    TrimSpace (" " ++ "node1" ++ "\n") = TrimSpace "node1"
    ∧ handlePoll sampleLib (fixedCoordinator none (.ok scrapeRequest) (.error "") [])
        ResponseWriter.fresh
        { Request.inbound "POST" ⟨"", "", "/poll", ""⟩ "node1" with
          Body := " " ++ "node1" ++ "\n" } 0
      = handlePoll sampleLib (fixedCoordinator none (.ok scrapeRequest) (.error "") [])
        ResponseWriter.fresh (Request.inbound "POST" ⟨"", "", "/poll", ""⟩ "node1") 0 :=
  (handlePoll_target sampleLib (fixedCoordinator none (.ok scrapeRequest) (.error "") [])
    (Request.inbound "POST" ⟨"", "", "/poll", ""⟩ "node1") 0).2.2.2.2.2 " " "\n"
    (by decide) (by decide)

/-! ## Proxied scrapes: the error reply -/

/-- A character that `appendEscapedRune` leaves as it is. -/
theorem appendEscapedRune_plain (wide : Char → Bool) (ch : Char)
    (h : ch ≠ '"' ∧ ch ≠ '\\' ∧ IsPrint wide ch = true) :
    appendEscapedRune wide ch = [ch] := by
  simp [appendEscapedRune, h.1, h.2.1, h.2.2]

/-- A string of characters that need no escape is quoted by putting it between
double quotes. -/
theorem Quote_plain (wide : Char → Bool) (s : String)
    (h : ∀ ch ∈ s.data, ch ≠ '"' ∧ ch ≠ '\\' ∧ IsPrint wide ch = true) :
    (Quote wide s).data = '"' :: (s.data ++ ['"']) := by
  have hmap : ∀ l : List Char, (∀ ch ∈ l, ch ≠ '"' ∧ ch ≠ '\\' ∧ IsPrint wide ch = true) →
      l.flatMap (appendEscapedRune wide) = l := by
    intro l
    induction l with
    | nil => intro _; rfl
    | cons a t ih =>
      intro hl
      rw [List.flatMap_cons, appendEscapedRune_plain wide a (hl a (List.mem_cons_self a t)),
        ih (fun ch hch => hl ch (List.mem_cons_of_mem a hch))]
      rfl
  simp [Quote, hmap s.data h]

/-- C5 as amended: when `DoScrape` returns an error, `handleProxy` replies with
`http.Error` alone: status 500 and the message `Error scraping `, the requested
URL as a Go double-quoted string, `: `, the error text and a newline. The
message contains the error text and the quoted URL; it contains the URL itself
when no character of the URL needs an escape (none is a double quote, a
backslash or unprintable). Nothing of a scrape response is written on this
path. When `DoScrape` returns a response the reply is what `copyHTTPResponse`
writes and nothing else, and its status is 500 only when the status code of
that response is 500: `handleProxy` answers 500 of its own only on the error
path. -/
theorem handleProxy_error_reply {σ : Type} (lib : StdLib) (policy : TimeoutPolicy)
    (flags : Flags) (c : Coordinator σ) (r : Request) (s : σ) :
    (∀ err, (c.DoScrape (proxyContext policy flags r) (proxyRequest policy flags r) s).1
        = .error err →
      (handleProxy lib policy flags c ResponseWriter.fresh r s).w
        = Error ResponseWriter.fresh ("Error scraping "
            ++ Quote lib.isPrintWide (lib.URLString r.URL) ++ ": " ++ err) 500
      ∧ (handleProxy lib policy flags c ResponseWriter.fresh r s).w.statusCode = 500
      ∧ (handleProxy lib policy flags c ResponseWriter.fresh r s).w.body
        = "Error scraping " ++ Quote lib.isPrintWide (lib.URLString r.URL) ++ ": " ++ err ++ "\n"
      ∧ err.data <:+: (handleProxy lib policy flags c ResponseWriter.fresh r s).w.body.data
      ∧ (Quote lib.isPrintWide (lib.URLString r.URL)).data
          <:+: (handleProxy lib policy flags c ResponseWriter.fresh r s).w.body.data
      ∧ ((∀ ch ∈ (lib.URLString r.URL).data,
            ch ≠ '"' ∧ ch ≠ '\\' ∧ IsPrint lib.isPrintWide ch = true) →
          (lib.URLString r.URL).data
            <:+: (handleProxy lib policy flags c ResponseWriter.fresh r s).w.body.data))
    ∧ (∀ resp, (c.DoScrape (proxyContext policy flags r) (proxyRequest policy flags r) s).1
        = .ok resp →
      (handleProxy lib policy flags c ResponseWriter.fresh r s).w
        = copyHTTPResponse resp ResponseWriter.fresh
      ∧ ((handleProxy lib policy flags c ResponseWriter.fresh r s).w.statusCode = 500 →
          resp.StatusCode = 500)) := by
  constructor
  · intro err hres
    have hw := handleProxy_error lib policy flags c ResponseWriter.fresh r s err hres
    have hbody : (handleProxy lib policy flags c ResponseWriter.fresh r s).w.body
        = "Error scraping " ++ Quote lib.isPrintWide (lib.URLString r.URL) ++ ": " ++ err
          ++ "\n" := by
      rw [hw, body_Error_fresh _ 500 (by decide) (by decide)]
    refine ⟨hw, ?_, hbody, ?_, ?_, ?_⟩
    · rw [hw, statusCode_Error_fresh _ 500 (by decide) (by decide)]
    · rw [hbody]
      refine ⟨("Error scraping " ++ Quote lib.isPrintWide (lib.URLString r.URL) ++ ": ").data,
        "\n".data, ?_⟩
      simp [String.data_append]
    · rw [hbody]
      refine ⟨"Error scraping ".data, (": " ++ err ++ "\n").data, ?_⟩
      simp [String.data_append]
    · intro hplain
      rw [hbody]
      refine ⟨"Error scraping ".data ++ ['"'], '"' :: (": " ++ err ++ "\n").data, ?_⟩
      simp [String.data_append, Quote_plain lib.isPrintWide (lib.URLString r.URL) hplain]
  · intro resp hres
    have hw := handleProxy_ok lib policy flags c ResponseWriter.fresh r s resp hres
    refine ⟨hw, ?_⟩
    rw [hw]
    obtain ⟨_, h2, h3, h4, _, _⟩ := copyHTTPResponse_spec resp
    intro h500
    by_cases hinv : resp.StatusCode < 100 ∨ 999 < resp.StatusCode
    · have hwrote := (h4 hinv).2.1
      simp [ResponseWriter.statusCode, hwrote] at h500
    · by_cases hinterim : 100 ≤ resp.StatusCode ∧ resp.StatusCode ≤ 199 ∧ resp.StatusCode ≠ 101
      · rw [(h3 hinterim).1] at h500
        exact absurd h500 (by decide)
      · have hfinal : resp.StatusCode = 101
            ∨ (200 ≤ resp.StatusCode ∧ resp.StatusCode ≤ 999) := by omega
        rw [(h2 hfinal).1] at h500
        exact h500

/-- C5 at a concrete scrape: the scrape of `node1` times out, and the reply is
500 with a message that holds the URL and the error text. -/
theorem handleProxy_error_reply_witness :
    (handleProxy sampleLib (policyOf none) Flags.default
        (fixedCoordinator none (.error "") (.error "context deadline exceeded") [])
        ResponseWriter.fresh proxiedScrape 0).w.statusCode = 500
    ∧ (handleProxy sampleLib (policyOf none) Flags.default
        (fixedCoordinator none (.error "") (.error "context deadline exceeded") [])
        ResponseWriter.fresh proxiedScrape 0).w.body
      = "Error scraping \"http://node1:9100/metrics\": context deadline exceeded\n"
    ∧ "http://node1:9100/metrics".data
      <:+: (handleProxy sampleLib (policyOf none) Flags.default
        (fixedCoordinator none (.error "") (.error "context deadline exceeded") [])
        ResponseWriter.fresh proxiedScrape 0).w.body.data :=
  ⟨((handleProxy_error_reply sampleLib (policyOf none) Flags.default
      (fixedCoordinator none (.error "") (.error "context deadline exceeded") [])
      proxiedScrape 0).1 "context deadline exceeded" rfl).2.1,
   ((handleProxy_error_reply sampleLib (policyOf none) Flags.default
      (fixedCoordinator none (.error "") (.error "context deadline exceeded") [])
      proxiedScrape 0).1 "context deadline exceeded" rfl).2.2.1,
   ((handleProxy_error_reply sampleLib (policyOf none) Flags.default
      (fixedCoordinator none (.error "") (.error "context deadline exceeded") [])
      proxiedScrape 0).1 "context deadline exceeded" rfl).2.2.2.2.2 (by decide)⟩

set_option maxRecDepth 100000 in
/-- C5 as stated fails: for the scrape of `http://node1:9100/metrics?job="a"`
(the raw query of a URL is kept as received) that times out, the message is
`Error scraping "http://node1:9100/metrics?job=\"a\"": context deadline exceeded`,
in which `%q` has escaped the double quotes of the URL, so the requested URL is
not part of the message. -/
theorem handleProxy_error_reply_counterexample :
    ((fixedCoordinator none (.error "") (.error "context deadline exceeded") []).DoScrape
        (proxyContext (policyOf none) Flags.default quotedScrape)
        (proxyRequest (policyOf none) Flags.default quotedScrape) 0).1
      = .error "context deadline exceeded"
    ∧ sampleLib.URLString quotedScrape.URL = "http://node1:9100/metrics?job=\"a\""
    ∧ (handleProxy sampleLib (policyOf none) Flags.default
        (fixedCoordinator none (.error "") (.error "context deadline exceeded") [])
        ResponseWriter.fresh quotedScrape 0).w.body
      = "Error scraping \"http://node1:9100/metrics?job=\\\"a\\\"\": context deadline exceeded\n"
    ∧ ¬ ((sampleLib.URLString quotedScrape.URL).data
      <:+: (handleProxy sampleLib (policyOf none) Flags.default
        (fixedCoordinator none (.error "") (.error "context deadline exceeded") [])
        ResponseWriter.fresh quotedScrape 0).w.body.data) := by
  refine ⟨rfl, by decide, by decide, by decide⟩

/-! ## `GET /clients` -/

/-- The loop of `handleListClients` builds one target group per known client,
in order. -/
theorem targets_loop (known : List String) :
    known.foldl (fun (targets : List targetGroup) k =>
        targets ++ [{ Targets := some [k], Labels := none }]) []
      = known.map fun k => ({ Targets := some [k], Labels := none } : targetGroup) := by
  have hgen : ∀ (l : List String) (acc : List targetGroup),
      l.foldl (fun (targets : List targetGroup) k =>
          targets ++ [{ Targets := some [k], Labels := none }]) acc
        = acc ++ l.map fun k => ({ Targets := some [k], Labels := none } : targetGroup) := by
    intro l
    induction l with
    | nil => intro acc; simp
    | cons a t ih => intro acc; simp [ih]
  simpa using hgen known []

/-- C6 as amended: for every list of known clients, the empty one included,
`GET /clients` is answered 200 with content type `application/json` and a JSON
array that has one element per known client, in the same order; the element
for the identifier `id` is the object whose `targets` is the one-element array
`[id]` and whose `labels` is `null`; for the empty list the body is `[]`. The
body ends with a newline. -/
theorem handleListClients_body {σ : Type} (lib : StdLib) (c : Coordinator σ) (r : Request)
    (s : σ) :
    (handleListClients lib c ResponseWriter.fresh r s).w.statusCode = 200
    ∧ (handleListClients lib c ResponseWriter.fresh r s).w.header.lookup "Content-Type"
      = some ["application/json"]
    ∧ (handleListClients lib c ResponseWriter.fresh r s).w.body
      = "[" ++ ",".intercalate ((c.KnownClients s).map fun id =>
          "\x7b\"targets\":[" ++ lib.jsonString id ++ "],\"labels\":null\x7d") ++ "]" ++ "\n"
    ∧ ((c.KnownClients s).map fun id =>
          "\x7b\"targets\":[" ++ lib.jsonString id ++ "],\"labels\":null\x7d").length
      = (c.KnownClients s).length
    ∧ (c.KnownClients s = [] →
        (handleListClients lib c ResponseWriter.fresh r s).w.body = "[]\n") := by
  obtain ⟨hst, hwb, hhead, _, _⟩ := Write_unwritten
    { ResponseWriter.fresh with
      header := ResponseWriter.fresh.header.Set "Content-Type" "application/json" }
    (Encode lib.jsonString ((c.KnownClients s).map fun k =>
      ({ Targets := some [k], Labels := none } : targetGroup))) rfl rfl (by decide) rfl
  have hout : (handleListClients lib c ResponseWriter.fresh r s).w
      = ({ ResponseWriter.fresh with
          header := ResponseWriter.fresh.header.Set "Content-Type" "application/json" }).Write
        (Encode lib.jsonString ((c.KnownClients s).map fun k =>
          ({ Targets := some [k], Labels := none } : targetGroup))) := by
    simp only [handleListClients, targets_loop]
  have hbody : (handleListClients lib c ResponseWriter.fresh r s).w.body
      = "[" ++ ",".intercalate ((c.KnownClients s).map fun id =>
          "\x7b\"targets\":[" ++ lib.jsonString id ++ "],\"labels\":null\x7d") ++ "]" ++ "\n" := by
    rw [hout, hwb]
    simp only [Encode, List.map_map]
    have hfun : (marshalTargetGroup lib.jsonString ∘ fun k =>
          ({ Targets := some [k], Labels := none } : targetGroup))
        = fun id => "\x7b\"targets\":[" ++ lib.jsonString id ++ "],\"labels\":null\x7d" := by
      funext id
      simp only [Function.comp, marshalTargetGroup, marshalStrings, marshalLabels,
        String.intercalate, String.intercalate.go, List.map_cons, List.map_nil]
      simp only [String.append_assoc]
      rw [← String.append_assoc "\x7b\"targets\":" "["]
      rfl
    rw [hfun]
    simp [ResponseWriter.fresh]
  refine ⟨?_, ?_, hbody, by simp, ?_⟩
  · rw [hout, hst]
  · rw [hout, hhead]
    decide
  · intro hempty
    rw [hbody, hempty]
    rfl

/-- C6 at concrete client lists: with `node1` and `node2` known the body is
the array of their two objects, and with no client known it is `[]`. -/
theorem handleListClients_body_witness :
    (handleListClients sampleLib (fixedCoordinator none (.error "") (.error "") ["node1", "node2"])
        ResponseWriter.fresh (Request.inbound "GET" ⟨"", "", "/clients", ""⟩ "") 0).w.body
      = "[\x7b\"targets\":[\"node1\"],\"labels\":null\x7d,\x7b\"targets\":[\"node2\"],\"labels\":null\x7d]\n"
    ∧ (handleListClients sampleLib (fixedCoordinator none (.error "") (.error "") [])
        ResponseWriter.fresh (Request.inbound "GET" ⟨"", "", "/clients", ""⟩ "") 0).w.body
      = "[]\n" :=
  ⟨(handleListClients_body sampleLib
      (fixedCoordinator none (.error "") (.error "") ["node1", "node2"])
      (Request.inbound "GET" ⟨"", "", "/clients", ""⟩ "") 0).2.2.1,
   (handleListClients_body sampleLib (fixedCoordinator none (.error "") (.error "") [])
      (Request.inbound "GET" ⟨"", "", "/clients", ""⟩ "") 0).2.2.2.2 rfl⟩

/-- C6 as stated fails: with the one client `node1` known, the body is
`[{"targets":["node1"],"labels":null}]`: the `labels` of the element is `null`,
not the empty object, so the body is not `[{"targets":["node1"],"labels":{}}]`. -/
theorem handleListClients_body_counterexample :
    (handleListClients sampleLib (fixedCoordinator none (.error "") (.error "") ["node1"])
        ResponseWriter.fresh (Request.inbound "GET" ⟨"", "", "/clients", ""⟩ "") 0).w.body
      = "[\x7b\"targets\":[\"node1\"],\"labels\":null\x7d]\n"
    ∧ (handleListClients sampleLib (fixedCoordinator none (.error "") (.error "") ["node1"])
        ResponseWriter.fresh (Request.inbound "GET" ⟨"", "", "/clients", ""⟩ "") 0).w.body
      ≠ "[\x7b\"targets\":[\"node1\"],\"labels\":\x7b\x7d\x7d]\n" := by
  constructor <;> decide

/-! ## Proxied scrapes: the timeout -/

/-- C9 as amended: `handleProxy` hands `DoScrape` the context made by
`context.WithTimeout` from the value of the scrape-timeout policy on the
request headers with the configured maximum and default, unaltered; for an
inbound request, whose own context has no deadline, the timeout of that context
is the value of the policy. That value is the caller-supplied timeout when one
is present and lies in `[0, max]`; it is `max` when the supplied timeout is
greater than `max`; it is the default when none is supplied and the configured
default lies in `[0, max]`; and it lies in `[0, max]` whenever `max` is not
negative and either a timeout is supplied or the configured default lies in
`[0, max]`. All of this holds whatever the policy returns when no timeout is
supplied and the default lies outside `[0, max]`, of which nothing is said. -/
theorem handleProxy_timeout {σ : Type} (lib : StdLib) (policy : TimeoutPolicy)
    (flags : Flags) (c : Coordinator σ) (w : ResponseWriter) (r : Request) (s : σ) :
    (handleProxy lib policy flags c w r s).calls
      = [Call.DoScrape
          (WithTimeout r.ctx (GetScrapeTimeout policy flags.maxScrapeTimeout
            flags.defaultScrapeTimeout r.Header))
          (proxyRequest policy flags r)]
    ∧ (r.ctx.timeout = none →
        (proxyContext policy flags r).timeout
          = some (GetScrapeTimeout policy flags.maxScrapeTimeout flags.defaultScrapeTimeout
              r.Header)
        ∧ (proxyRequest policy flags r).ctx = proxyContext policy flags r)
    ∧ (∀ t, policy.supplied r.Header = some t → 0 ≤ t → t ≤ flags.maxScrapeTimeout →
        GetScrapeTimeout policy flags.maxScrapeTimeout flags.defaultScrapeTimeout r.Header = t)
    ∧ (∀ t, policy.supplied r.Header = some t → flags.maxScrapeTimeout < t →
        GetScrapeTimeout policy flags.maxScrapeTimeout flags.defaultScrapeTimeout r.Header
          = flags.maxScrapeTimeout)
    ∧ (policy.supplied r.Header = none →
        0 ≤ flags.defaultScrapeTimeout → flags.defaultScrapeTimeout ≤ flags.maxScrapeTimeout →
        GetScrapeTimeout policy flags.maxScrapeTimeout flags.defaultScrapeTimeout r.Header
          = flags.defaultScrapeTimeout)
    ∧ (∀ t, policy.supplied r.Header = some t → 0 ≤ flags.maxScrapeTimeout →
        0 ≤ GetScrapeTimeout policy flags.maxScrapeTimeout flags.defaultScrapeTimeout r.Header
        ∧ GetScrapeTimeout policy flags.maxScrapeTimeout flags.defaultScrapeTimeout r.Header
          ≤ flags.maxScrapeTimeout)
    ∧ (policy.supplied r.Header = none →
        0 ≤ flags.defaultScrapeTimeout → flags.defaultScrapeTimeout ≤ flags.maxScrapeTimeout →
        0 ≤ GetScrapeTimeout policy flags.maxScrapeTimeout flags.defaultScrapeTimeout r.Header
        ∧ GetScrapeTimeout policy flags.maxScrapeTimeout flags.defaultScrapeTimeout r.Header
          ≤ flags.maxScrapeTimeout) := by
  refine ⟨handleProxy_calls lib policy flags c w r s, ?_, ?_, ?_, ?_, ?_, ?_⟩
  · intro hctx
    refine ⟨?_, rfl⟩
    simp only [proxyContext, WithTimeout, hctx]
  · intro t ht h0 hmax
    simp only [GetScrapeTimeout, ht]
    rw [if_neg (by omega), if_neg (by omega)]
  · intro t ht hmax
    simp only [GetScrapeTimeout, ht]
    rw [if_pos hmax]
  · intro ht h0 hmax
    simp only [GetScrapeTimeout, ht]
    rw [if_pos ⟨h0, hmax⟩]
  · intro t ht hmax
    simp only [GetScrapeTimeout, ht]
    split_ifs <;> constructor <;> omega
  · intro ht h0 hmax
    simp only [GetScrapeTimeout, ht]
    rw [if_pos ⟨h0, hmax⟩]
    exact ⟨h0, hmax⟩

/-- C9 at concrete requests, with the default flags (`5m`, `15s`): a supplied
timeout of 10s is handed on as it is, one of 10m is cut to 5m, no timeout gives
15s, and each of these lies in `[0, 5m]`. -/
theorem handleProxy_timeout_witness :
    (proxyContext (policyOf (some 10000000000)) Flags.default proxiedScrape).timeout
      = some 10000000000
    ∧ GetScrapeTimeout (policyOf (some 10000000000)) 300000000000 15000000000 ∅ = 10000000000
    ∧ GetScrapeTimeout (policyOf (some 600000000000)) 300000000000 15000000000 ∅
      = 300000000000
    ∧ GetScrapeTimeout (policyOf none) 300000000000 15000000000 ∅ = 15000000000
    ∧ (0 ≤ GetScrapeTimeout (policyOf (some 600000000000)) 300000000000 15000000000 ∅
      ∧ GetScrapeTimeout (policyOf (some 600000000000)) 300000000000 15000000000 ∅
        ≤ 300000000000)
    ∧ (0 ≤ GetScrapeTimeout (policyOf none) 300000000000 15000000000 ∅
      ∧ GetScrapeTimeout (policyOf none) 300000000000 15000000000 ∅ ≤ 300000000000) :=
  ⟨((handleProxy_timeout sampleLib (policyOf (some 10000000000)) Flags.default
      (fixedCoordinator none (.error "") (.ok scrapedResponse) []) ResponseWriter.fresh
      proxiedScrape 0).2.1 rfl).1,
   (handleProxy_timeout sampleLib (policyOf (some 10000000000)) Flags.default
      (fixedCoordinator none (.error "") (.ok scrapedResponse) []) ResponseWriter.fresh
      proxiedScrape 0).2.2.1 10000000000 rfl (by decide) (by decide),
   (handleProxy_timeout sampleLib (policyOf (some 600000000000)) Flags.default
      (fixedCoordinator none (.error "") (.ok scrapedResponse) []) ResponseWriter.fresh
      proxiedScrape 0).2.2.2.1 600000000000 rfl (by decide),
   (handleProxy_timeout sampleLib (policyOf none) Flags.default
      (fixedCoordinator none (.error "") (.ok scrapedResponse) []) ResponseWriter.fresh
      proxiedScrape 0).2.2.2.2.1 rfl (by decide) (by decide),
   (handleProxy_timeout sampleLib (policyOf (some 600000000000)) Flags.default
      (fixedCoordinator none (.error "") (.ok scrapedResponse) []) ResponseWriter.fresh
      proxiedScrape 0).2.2.2.2.2.1 600000000000 rfl (by decide),
   (handleProxy_timeout sampleLib (policyOf none) Flags.default
      (fixedCoordinator none (.error "") (.ok scrapedResponse) []) ResponseWriter.fresh
      proxiedScrape 0).2.2.2.2.2.2 rfl (by decide) (by decide)⟩

/-- C9 as stated fails, whatever the scrape-timeout policy returns. With the
flags set to a maximum of 5s and a default of 15s and no timeout supplied, the
claim asks the timeout handed to `DoScrape` to be the default, 15s, and to be
at most the maximum, 5s: no value `outOfRange` gives the policy does both.
With the maximum set to -1s and a timeout of 0s supplied, the claim asks the
timeout to be the maximum, -1s, and not to be less than 0. -/
theorem handleProxy_timeout_counterexample :
    (¬ ∃ outOfRange : Int → Int → Int,
      (proxyContext ⟨fun _ => none, outOfRange⟩ ⟨5000000000, 15000000000⟩
          proxiedScrape).timeout = some 15000000000
      ∧ ∀ t, (proxyContext ⟨fun _ => none, outOfRange⟩ ⟨5000000000, 15000000000⟩
          proxiedScrape).timeout = some t → 0 ≤ t ∧ t ≤ 5000000000)
    ∧ (¬ ∃ outOfRange : Int → Int → Int,
      (proxyContext ⟨fun _ => some 0, outOfRange⟩ ⟨-1000000000, 15000000000⟩
          proxiedScrape).timeout = some (-1000000000)
      ∧ ∀ t, (proxyContext ⟨fun _ => some 0, outOfRange⟩ ⟨-1000000000, 15000000000⟩
          proxiedScrape).timeout = some t → 0 ≤ t ∧ t ≤ -1000000000) := by
  constructor
  · rintro ⟨f, h1, h2⟩
    have := h2 _ h1
    omega
  · rintro ⟨f, h1, h2⟩
    have := h2 _ h1
    omega

/-! ## The result router -/

/-- C10: for every coordinator state and every pushed result, when the
correlation ID of the result has no waiter in the registry (never issued,
already delivered or already expired), `SubmitResult` returns
`UnknownOrExpired` and the state is exactly as before, and `handlePush` then
answers 500 without changing the state; when the ID has a waiter, the result
is written to the slot of that waiter and that one entry is removed: every
other waiter, every other slot, the mailboxes and the client registry are
unchanged, and a second push of the same result finds no waiter. -/
theorem SubmitResult_frame (s : CoordState) (result : Response) :
    (s.waiters.lookup (result.Header.Get "Id") = none →
      SubmitResult result s = (.error CoordError.UnknownOrExpired, s)
      ∧ ∀ (lib : StdLib) (c : Coordinator CoordState) (r : Request),
          lib.ReadResponse r.Body = .ok result →
          (handlePush lib (withResultRouter c) ResponseWriter.fresh r s).state = s
          ∧ (handlePush lib (withResultRouter c) ResponseWriter.fresh r s).w.statusCode = 500)
    ∧ (∀ slot, s.waiters.lookup (result.Header.Get "Id") = some slot →
      (SubmitResult result s).1 = .ok ()
      ∧ (SubmitResult result s).2.slots.lookup slot = some result
      ∧ (SubmitResult result s).2.waiters.lookup (result.Header.Get "Id") = none
      ∧ (∀ id, id ≠ result.Header.Get "Id" →
          (SubmitResult result s).2.waiters.lookup id = s.waiters.lookup id)
      ∧ (∀ other, other ≠ slot →
          (SubmitResult result s).2.slots.lookup other = s.slots.lookup other)
      ∧ (SubmitResult result s).2.mailboxes = s.mailboxes
      ∧ (SubmitResult result s).2.clients = s.clients
      ∧ SubmitResult result (SubmitResult result s).2
        = (.error CoordError.UnknownOrExpired, (SubmitResult result s).2)) := by
  constructor
  · intro hnone
    have hsub : SubmitResult result s = (.error CoordError.UnknownOrExpired, s) := by
      simp [SubmitResult, Deliver, hnone]
    refine ⟨hsub, ?_⟩
    intro lib c r hparse
    have hsr : (withResultRouter c).ScrapeResult result s
        = (some CoordError.UnknownOrExpired.message, s) := by
      simp [withResultRouter, ScrapeResult, hsub]
    simp [handlePush, hparse, hsr, statusCode_Error_fresh _ 500 (by decide) (by decide)]
  · intro slot hsome
    have hsub : SubmitResult result s
        = (.ok (), { s with slots := s.slots.insert slot result,
                            waiters := s.waiters.erase (result.Header.Get "Id") }) := by
      simp [SubmitResult, Deliver, hsome]
    rw [hsub]
    refine ⟨rfl, ?_, ?_, ?_, ?_, rfl, rfl, ?_⟩
    · simp
    · simp
    · intro id hid
      simp [AList.lookup_erase_ne hid]
    · intro other hother
      simp [AList.lookup_insert_ne hother]
    · simp [SubmitResult, Deliver]

/-- C10 at a concrete state: with one waiter, for ticket `42`, a result for
ticket `43` is refused and the state stays as it was, and the result for
ticket `42` lands in slot 7 of that waiter; with no waiter at all, the push of
the result for ticket `42` is answered 500. -/
theorem SubmitResult_frame_witness :
    SubmitResult { pushedResponse with Header := (∅ : Header).insert "Id" ["43"] } oneWaiter
      = (.error CoordError.UnknownOrExpired, oneWaiter)
    ∧ (SubmitResult pushedResponse oneWaiter).2.slots.lookup 7 = some pushedResponse
    ∧ (handlePush sampleLib (withResultRouter idleCoordinator) ResponseWriter.fresh
        (Request.inbound "POST" ⟨"", "", "/push", ""⟩ pushedBytes) noWaiter).w.statusCode = 500 :=
  ⟨((SubmitResult_frame oneWaiter
      { pushedResponse with Header := (∅ : Header).insert "Id" ["43"] }).1 (by decide)).1,
   ((SubmitResult_frame oneWaiter pushedResponse).2 7 (by decide)).2.1,
   (((SubmitResult_frame noWaiter pushedResponse).1 (by decide)).2 sampleLib idleCoordinator
      (Request.inbound "POST" ⟨"", "", "/push", ""⟩ pushedBytes)
      (by simp [sampleLib, Request.inbound])).2⟩

end PushProx
